import Mathlib

/-!
Verification of the payment-settlement reconciliation core of the Rechiro
fish-marketplace application (apps `fishing` and `users`).

Monetary amounts and weights are represented in integer hundredths
(cents / hundredths of a kg), matching the 2-decimal-place `DecimalField`
columns of the source.  Python `Decimal.quantize(Decimal('0.01'))` uses the
default `ROUND_HALF_EVEN` context, embedded below as `roundHalfEven`.
Database tables are lists of records; primary keys are allocated from a
`next_id` counter; Django `update`/`save` on a fetched row is embedded as
`updateFirst` (the source fetches rows with `.get()` / `select_for_update`,
which returns a single row; on the list embedding this is the first match,
consistently with `List.find?`).
-/

namespace Rechiro

/-- Round `n / d` to the nearest integer, ties to even — the rounding used by
Python `Decimal.quantize` under the default context.  `d` is positive in all
uses. -/
def roundHalfEven (n d : Int) : Int :=
  let q := n / d
  let r := n % d
  if 2 * r < d then q
  else if d < 2 * r then q + 1
  else if q % 2 = 0 then q else q + 1

/-- Python falsy-string fallback `a or b`. -/
def strOr (a b : String) : String :=
  if a = "" then b else a

/-- `fishing.models.Fish` (the fields the settlement core reads/writes).
`available_weight` is in hundredths of a kg, `price_per_kg` in cents. -/
structure Fish where
  id : Nat
  fisherman_id : Nat
  name : String
  price_per_kg : Int
  available_weight : Int
  status : String
  deriving DecidableEq

/-- `Fish.reduce_stock`: deduct `weight` after purchase; refuse when more than
the available weight is requested; mark the listing sold when it reaches
zero.  Returns the updated row and the method's boolean result. -/
def Fish.reduce_stock (f : Fish) (weight : Int) : Fish × Bool :=
  if weight ≤ f.available_weight then
    let aw := f.available_weight - weight
    ({ f with
        available_weight := aw
        status := if aw ≤ 0 then "sold" else f.status }, true)
  else (f, false)

/-- `Fish.is_available`. -/
def Fish.is_available (f : Fish) : Prop :=
  f.status = "available" ∧ 0 < f.available_weight

instance (f : Fish) : Decidable f.is_available := by
  unfold Fish.is_available; infer_instance

/-- `users.models.CustomUser` (the fields the core reads/writes). -/
structure User where
  id : Nat
  role : String
  phone : String
  email_verified : Bool
  phone_verified : Bool
  deriving DecidableEq

/-- `users.models.FishermanProfile` (M-Pesa payout configuration). -/
structure FishermanProfile where
  user_id : Nat
  phone : String
  is_verified : Bool
  mpesa_phone : String
  mpesa_payment_type : String
  mpesa_till_number : String
  mpesa_paybill_number : String
  deriving DecidableEq

/-- `fishing.models.CartItem` (flattened over the per-user `Cart`). -/
structure CartItem where
  user_id : Nat
  fish_id : Nat
  weight_kg : Int
  deriving DecidableEq

/-- `fishing.models.PickupPoint` (only its key is consumed by the core). -/
structure PickupPoint where
  id : Nat
  deriving DecidableEq

/-- `fishing.models.Order` (the fields the settlement core reads/writes). -/
structure Order where
  id : Nat
  order_number : String
  customer_id : Nat
  status : String
  total_amount : Int
  platform_fee : Int
  fishermen_net_amount : Int
  fulfillment_method : String
  pickup_point : Option Nat
  delivery_location : String
  delivery_address : String
  delivery_notes : String
  customer_phone : String
  deriving DecidableEq

/-- `fishing.models.OrderItem`. -/
structure OrderItem where
  id : Nat
  order_id : Nat
  fish_id : Nat
  fisherman_id : Nat
  fish_name : String
  weight_kg : Int
  price_per_kg : Int
  total_price : Int
  platform_fee : Int
  fisherman_net_payout : Int
  fulfillment_status : String
  deriving DecidableEq

/-- `fishing.models.PaymentTransaction` — the ChargeRequest of the spec. -/
structure PaymentTransaction where
  id : Nat
  order_id : Nat
  order_item_id : Option Nat
  buyer_id : Nat
  fisherman_id : Nat
  transaction_id : String
  mpesa_receipt_number : String
  amount : Int
  unit_price_per_kg : Int
  weight_kg : Int
  platform_fee : Int
  net_payout : Int
  phone_number : String
  status : String
  result_code : Option Int
  result_desc : String
  merchant_request_id : String
  checkout_request_id : String
  deriving DecidableEq

/-- `users.models.PhoneVerificationTransaction` — the unrelated
phone-ownership verification flow sharing the gateway callback. -/
structure PhoneVerificationTransaction where
  user_id : Nat
  checkout_request_id : String
  status : String
  result_code : Option Int
  result_desc : String
  mpesa_receipt_number : String
  deriving DecidableEq

/-- `fishing.models.Delivery` (1:1 with Order). -/
structure Delivery where
  order_id : Nat
  status : String
  fisherman_id : Nat
  updated_by : Nat
  deriving DecidableEq

/-- `fishing.models.FishTransactionLog` — the audit sink. -/
structure FishTransactionLog where
  fish_id : Option Nat
  action : String
  user_id : Option Nat
  weight_change : Option Int
  notes : String
  deriving DecidableEq

/-- `fishing.models.SellerNotification` (referenced by views/admin/tests;
its class body is not among the sources, so its fields are
Modelled from the spec: an append-only seller-payout record emitted at most
once per completed ChargeRequest, keyed by the `get_or_create` lookup tuple
used at the call site in `mpesa_callback`). -/
structure SellerNotification where
  fisherman_id : Nat
  buyer_id : Nat
  order_id : Nat
  payment_transaction_id : Nat
  fish_item : String
  weight_kg : Int
  total_amount : Int
  net_earnings : Int
  receipt_number : String
  message : String
  deriving DecidableEq

/-- `fishing.models.PlatformFeeLog` (referenced by views/admin/tests; its
class body is not among the sources, so its fields are
Modelled from the spec: an append-only platform-fee ledger entry emitted at
most once per completed ChargeRequest, keyed by the `get_or_create` lookup
tuple used at the call site in `mpesa_callback`). -/
structure PlatformFeeLog where
  order_id : Nat
  payment_transaction_id : Nat
  fisherman_id : Nat
  fee_amount : Int
  gross_amount : Int
  net_amount : Int
  deriving DecidableEq

/-- The database: one list per table, plus a fresh-primary-key counter. -/
structure DB where
  users : List User
  profiles : List FishermanProfile
  fishes : List Fish
  cart_items : List CartItem
  pickup_points : List PickupPoint
  orders : List Order
  order_items : List OrderItem
  transactions : List PaymentTransaction
  verifications : List PhoneVerificationTransaction
  deliveries : List Delivery
  fish_logs : List FishTransactionLog
  notifications : List SellerNotification
  fee_logs : List PlatformFeeLog
  next_id : Nat
  deriving DecidableEq

/-- Apply `f` to the first element satisfying `p` (an ORM `save` of a row
fetched with `.get()` on the list embedding). -/
def updateFirst {α : Type} (p : α → Bool) (f : α → α) : List α → List α
  | [] => []
  | x :: xs => if p x then f x :: xs else x :: updateFirst p f xs

theorem updateFirst_mem_or {α : Type} (p : α → Bool) (f : α → α)
    (l : List α) (a : α) (hfind : l.find? p = some a) :
    ∀ x ∈ l, x ∈ updateFirst p f l ∨ x = a := by
  induction l with
  | nil => simp at hfind
  | cons y ys ih =>
    intro x hx
    rcases List.mem_cons.mp hx with hx | hx
    · by_cases hy : p y
      · have ha : a = y := by
          simp [List.find?, hy] at hfind
          exact hfind.symm
        right; rw [hx, ha]
      · left
        simp [updateFirst, hy, hx]
    · by_cases hy : p y
      · left
        simp [updateFirst, hy]
        right; exact hx
      · have hfind' : ys.find? p = some a := by
          simpa [List.find?, hy] using hfind
        rcases ih hfind' x hx with h | h
        · left
          simp [updateFirst, hy]
          right; exact h
        · right; exact h

theorem find?_updateFirst {α : Type} (p : α → Bool) (f : α → α)
    (l : List α) (a : α) (hfind : l.find? p = some a)
    (hp : p (f a) = true) :
    (updateFirst p f l).find? p = some (f a) := by
  induction l with
  | nil => simp at hfind
  | cons y ys ih =>
    by_cases hy : p y
    · have ha : a = y := by
        simp [List.find?, hy] at hfind
        exact hfind.symm
      subst ha
      simp [updateFirst, hy, List.find?, hp]
    · have hfind' : ys.find? p = some a := by
        simpa [List.find?, hy] using hfind
      simp [updateFirst, hy, List.find?, ih hfind']

theorem updateFirst_eq_of_find?_none {α : Type} (p : α → Bool) (f : α → α)
    (l : List α) (hfind : l.find? p = none) :
    updateFirst p f l = l := by
  induction l with
  | nil => rfl
  | cons y ys ih =>
    by_cases hy : p y
    · simp [List.find?, hy] at hfind
    · have hfind' : ys.find? p = none := by
        simpa [List.find?, hy] using hfind
      simp [updateFirst, hy, ih hfind']

/-- `OrderItem.save`: validate weight/price, freeze the line total
`(weight_kg * price_per_kg).quantize('0.01')`, the 2% line fee and the net
payout.  Amounts in cents (so the raw product is in hundredths of a cent and
`quantize` divides by 100 with half-even rounding; `0.02 * x` quantized to
cents is `2 * x_cents / 100` rounded half-even). -/
def OrderItem.save_financials (weight_kg price_per_kg : Int) :
    Except String (Int × Int × Int) :=
  if weight_kg ≤ 0 then .error "Weight must be greater than 0kg."
  else if price_per_kg ≤ 0 then .error "Price per kg must be greater than 0."
  else
    let total := roundHalfEven (weight_kg * price_per_kg) 100
    let fee := roundHalfEven (2 * total) 100
    .ok (total, fee, total - fee)

/-- `Order.calculate_financials`: gross is the plain sum of the (already
rounded) line totals, the fee is `(gross * 0.02).quantize('0.01')` and the
net is `(gross - fee).quantize('0.01')` (an identity on integer cents). -/
def Order.calculate_financials (o : Order) (items : List OrderItem) : Order :=
  let gross := items.foldl (fun acc it => acc + it.total_price) 0
  let fee := roundHalfEven (2 * gross) 100
  let net := gross - fee
  { o with total_amount := gross, platform_fee := fee, fishermen_net_amount := net }

/-- `Order.mark_as_paid`: set the order FULLY_PAID and deduct stock for each
of its line items via `Fish.reduce_stock`. -/
def Order.mark_as_paid (db : DB) (order_id : Nat) : DB :=
  let orders1 :=
    updateFirst (fun o => o.id == order_id)
      (fun o => { o with status := "FULLY_PAID" }) db.orders
  let db1 := { db with orders := orders1 }
  let items := db1.order_items.filter (fun it => it.order_id == order_id)
  let fishes1 :=
    items.foldl
      (fun fs it => updateFirst (fun f => f.id == it.fish_id)
        (fun f => (f.reduce_stock it.weight_kg).1) fs) db1.fishes
  { db1 with fishes := fishes1 }

/-- `Delivery.objects.update_or_create(order=order, defaults=...)`. -/
def deliveryUpdateOrCreate (db : DB) (order_id : Nat) (fisherman_id : Nat)
    (status : String) : DB :=
  if db.deliveries.any (fun d => d.order_id == order_id) then
    let ds :=
      updateFirst (fun d => d.order_id == order_id)
        (fun d => { d with fisherman_id := fisherman_id, status := status,
                           updated_by := fisherman_id }) db.deliveries
    { db with deliveries := ds }
  else
    let d : Delivery :=
      { order_id := order_id, status := status, fisherman_id := fisherman_id,
        updated_by := fisherman_id }
    { db with deliveries := db.deliveries ++ [d] }

/-- `SellerNotification.objects.get_or_create` with the lookup tuple used in
`mpesa_callback` (fisherman, buyer, order, payment_transaction). -/
def sellerNotificationGetOrCreate (db : DB) (n : SellerNotification) : DB :=
  if db.notifications.any (fun x =>
      x.fisherman_id == n.fisherman_id && x.buyer_id == n.buyer_id &&
      x.order_id == n.order_id &&
      x.payment_transaction_id == n.payment_transaction_id) then db
  else { db with notifications := db.notifications ++ [n] }

/-- `PlatformFeeLog.objects.get_or_create` with the lookup tuple used in
`mpesa_callback` (order, payment_transaction). -/
def platformFeeLogGetOrCreate (db : DB) (n : PlatformFeeLog) : DB :=
  if db.fee_logs.any (fun x =>
      x.order_id == n.order_id &&
      x.payment_transaction_id == n.payment_transaction_id) then db
  else { db with fee_logs := db.fee_logs ++ [n] }

/-- Raw `ResultCode` of a gateway callback: either an integer, or a value
(missing / non-numeric) on which Python `int(...)` raises. -/
inductive RawResultCode
  | intVal (n : Int)
  | unparseable
  deriving DecidableEq

/-- The `try: int(result_code) except (TypeError, ValueError): -1`
normalization used both by `mpesa_callback` and
`MpesaService.parse_callback_data`. -/
def normalizeResultCode : RawResultCode → Int
  | .intVal n => n
  | .unparseable => -1

/-- Settled amount carried by a callback: cents, or a value on which
`Decimal(str(amount))` raises. -/
inductive RawAmount
  | cents (n : Int)
  | invalid
  deriving DecidableEq

/-- Output of `process_payment_callback` (`MpesaService.parse_callback_data`)
as consumed by `mpesa_callback`: the view only reads these keys, with
`.get(...)` defaults for the optional ones. -/
structure CallbackResult where
  success : Bool
  checkout_request_id : Option String
  result_code : RawResultCode
  result_desc : Option String
  amount : Option RawAmount
  transaction_id : Option String
  deriving DecidableEq

/-- A `JsonResponse` of the callback endpoint: payload status string,
message, HTTP status code. -/
structure CbResponse where
  status : String
  message : String
  code : Nat
  deriving DecidableEq

/-- The phone-ownership-verification fallback branch of `mpesa_callback`
(`PhoneVerificationTransaction` matched by checkout request id). -/
def handleVerification (db : DB) (r : CallbackResult)
    (v : PhoneVerificationTransaction) (cid : String) : DB × CbResponse :=
  if v.status = "COMPLETED" then
    (db, ⟨"success", "Phone verification already processed", 200⟩)
  else
    let ncode := normalizeResultCode r.result_code
    if ncode = 0 ∧ r.success then
      let vs1 :=
        updateFirst (fun x => x.checkout_request_id == cid)
          (fun x => { x with status := "COMPLETED",
                             mpesa_receipt_number := r.transaction_id.getD "",
                             result_code := some ncode,
                             result_desc := r.result_desc.getD "" })
          db.verifications
      let us1 :=
        updateFirst (fun u => u.id == v.user_id)
          (fun u => { u with phone_verified := true }) db.users
      ({ db with verifications := vs1, users := us1 },
       ⟨"success", "Phone verification completed", 200⟩)
    else
      let vs1 :=
        updateFirst (fun x => x.checkout_request_id == cid)
          (fun x => { x with status := "FAILED",
                             result_code := some ncode,
                             result_desc := r.result_desc.getD "" })
          db.verifications
      ({ db with verifications := vs1 },
       ⟨"failed", "Phone verification failed", 200⟩)

/-- Step 5 of the reconciler (the tail of the success branch): recompute the
order aggregate over its charge requests; with zero PENDING and zero FAILED
remaining, run the FULLY_PAID settlement (stock deduction via
`Order.mark_as_paid`, DELIVERY_IN_PROGRESS, delivery row seeded per
fulfillment method); otherwise move a PENDING order to the partial PAID
marker. -/
def settleOrder (db2 : DB) (txn : PaymentTransaction) (order : Order) :
    DB × CbResponse :=
  let pending : Nat := (db2.transactions.filter
    (fun t => t.order_id == order.id && t.status == "PENDING")).length
  let failed : Nat := (db2.transactions.filter
    (fun t => t.order_id == order.id && t.status == "FAILED")).length
  if pending = 0 ∧ failed = 0 then
    let db3 :=
      if ¬ (order.status = "FULLY_PAID" ∨ order.status = "DELIVERY_IN_PROGRESS"
            ∨ order.status = "DELIVERED") then
        let dbm := Order.mark_as_paid db2 order.id
        let orders1 :=
          updateFirst (fun o => o.id == order.id)
            (fun o => { o with status := "DELIVERY_IN_PROGRESS" }) dbm.orders
        { dbm with orders := orders1 }
      else db2
    let db4 :=
      if order.fulfillment_method = "pickup" then
        deliveryUpdateOrCreate db3 order.id txn.fisherman_id "READY_FOR_PICKUP"
      else
        deliveryUpdateOrCreate db3 order.id txn.fisherman_id "DELIVERY_IN_PROGRESS"
    (db4, ⟨"success", "Payment confirmed. Order is paid.", 200⟩)
  else
    if order.status = "PENDING" then
      let orders1 :=
        updateFirst (fun o => o.id == order.id)
          (fun o => { o with status := "PAID" }) db2.orders
      ({ db2 with orders := orders1 },
       ⟨"success", "Payment entry confirmed.", 200⟩)
    else (db2, ⟨"success", "Payment entry confirmed.", 200⟩)

/-- Tail of the success branch of `mpesa_callback` after amount validation:
mark the charge COMPLETED, flip the line item to PAID exactly once (audit
log + get-or-create notification and fee-log), then drive the order
aggregate (FULLY_PAID settlement or partial PAID marker). -/
def completePayment (db : DB) (r : CallbackResult) (txn : PaymentTransaction)
    (order : Order) (cid : String) (ncode : Int) : DB × CbResponse :=
  let receipt := r.transaction_id.getD ""
  let txn1 := { txn with mpesa_receipt_number := receipt,
                         result_code := some ncode,
                         result_desc := r.result_desc.getD "",
                         status := "COMPLETED" }
  let txns1 :=
    updateFirst (fun t => t.checkout_request_id == cid) (fun _ => txn1)
      db.transactions
  let db1 := { db with transactions := txns1 }
  let db2 :=
    match txn.order_item_id with
    | none => db1
    | some item_id =>
      match db1.order_items.find? (fun it => it.id == item_id) with
      | none => db1
      | some item =>
        if item.fulfillment_status ≠ "PAID" then
          let items1 :=
            updateFirst (fun it => it.id == item_id)
              (fun it => { it with fulfillment_status := "PAID" })
              db1.order_items
          let log1 : FishTransactionLog :=
            { fish_id := some item.fish_id, action := "PAYMENT_RECEIVED",
              user_id := some order.customer_id,
              weight_change := some item.weight_kg,
              notes := "Payment received for " ++ item.fish_name }
          let db2b := { db1 with order_items := items1,
                                 fish_logs := db1.fish_logs ++ [log1] }
          let db2c := sellerNotificationGetOrCreate db2b
            { fisherman_id := txn.fisherman_id, buyer_id := order.customer_id,
              order_id := order.id, payment_transaction_id := txn.id,
              fish_item := item.fish_name, weight_kg := txn1.weight_kg,
              total_amount := txn1.amount, net_earnings := txn1.net_payout,
              receipt_number := txn1.mpesa_receipt_number,
              message := "Payment received for " ++ item.fish_name }
          platformFeeLogGetOrCreate db2c
            { order_id := order.id, payment_transaction_id := txn.id,
              fisherman_id := txn.fisherman_id, fee_amount := txn1.platform_fee,
              gross_amount := txn1.amount, net_amount := txn1.net_payout }
        else db1
  settleOrder db2 txn order

/-- Success branch of `mpesa_callback` (result code 0 + parser success):
validate an attached settled amount against the recorded charge amount
before completing. -/
def handleSuccess (db : DB) (r : CallbackResult) (txn : PaymentTransaction)
    (order : Order) (cid : String) (ncode : Int) : DB × CbResponse :=
  match r.amount with
  | some .invalid => (db, ⟨"error", "Invalid callback amount", 400⟩)
  | some (.cents a) =>
    if a ≠ txn.amount then
      let txns1 :=
        updateFirst (fun t => t.checkout_request_id == cid)
          (fun t => { t with status := "FAILED",
                             result_desc := "Amount mismatch in callback validation",
                             result_code := some ncode })
          db.transactions
      ({ db with transactions := txns1 },
       ⟨"error", "Callback amount validation failed", 400⟩)
    else completePayment db r txn order cid ncode
  | none => completePayment db r txn order cid ncode

/-- Failure branch of `mpesa_callback` (non-zero / unknown result code):
mark the charge FAILED, propagate FAILED to the order when any of its
charges is FAILED, and write the STOCK_RELEASED audit entry. -/
def handleFailure (db : DB) (r : CallbackResult) (txn : PaymentTransaction)
    (order : Order) (cid : String) (ncode : Int) : DB × CbResponse :=
  let txns1 :=
    updateFirst (fun t => t.checkout_request_id == cid)
      (fun t => { t with status := "FAILED", result_code := some ncode,
                         result_desc := r.result_desc.getD "" })
      db.transactions
  let db1 := { db with transactions := txns1 }
  let db2 :=
    if db1.transactions.any (fun t => t.order_id == order.id && t.status == "FAILED") then
      let orders1 :=
        updateFirst (fun o => o.id == order.id)
          (fun o => { o with status := "FAILED" }) db1.orders
      { db1 with orders := orders1 }
    else db1
  let db3 :=
    match txn.order_item_id with
    | none => db2
    | some item_id =>
      match db2.order_items.find? (fun it => it.id == item_id) with
      | none => db2
      | some item =>
        let log1 : FishTransactionLog :=
          { fish_id := some item.fish_id, action := "STOCK_RELEASED",
            user_id := some order.customer_id,
            weight_change := some item.weight_kg,
            notes := "Stock released due to payment failure for Order #"
              ++ order.order_number }
        { db2 with fish_logs := db2.fish_logs ++ [log1] }
  (db3, ⟨"failed", r.result_desc.getD "", 200⟩)

/-- `fishing.views.mpesa_callback`: the callback reconciler, one invocation
per POSTed gateway message, all inside one transaction. -/
def mpesa_callback (db : DB) (r : CallbackResult) : DB × CbResponse :=
  match r.checkout_request_id with
  | none => (db, ⟨"error", "Missing checkout request id", 400⟩)
  | some cid =>
    if cid = "" then (db, ⟨"error", "Missing checkout request id", 400⟩)
    else
      match db.transactions.find? (fun t => t.checkout_request_id == cid) with
      | none =>
        match db.verifications.find? (fun v => v.checkout_request_id == cid) with
        | none => (db, ⟨"error", "Transaction not found", 404⟩)
        | some v => handleVerification db r v cid
      | some txn =>
        match db.orders.find? (fun o => o.id == txn.order_id) with
        | none => (db, ⟨"error", "Transaction order missing", 500⟩)
        | some order =>
          if txn.status = "COMPLETED" then
            (db, ⟨"success", "Already processed", 200⟩)
          else
            let ncode := normalizeResultCode r.result_code
            if ncode = 0 ∧ r.success then
              handleSuccess db r txn order cid ncode
            else
              handleFailure db r txn order cid ncode

/-- `fishing.views._fisherman_payment_ready`: can the fisherman receive
checkout-triggered STK requests?  Returns (ready, reason). -/
def fisherman_payment_ready (profile : FishermanProfile)
    (fisherman_user : User) : Bool × String :=
  let payment_phone := strOr profile.mpesa_phone (strOr profile.phone fisherman_user.phone)
  if payment_phone = "" then (false, "missing M-Pesa phone number")
  else
    let payment_type := strOr profile.mpesa_payment_type "STK_PUSH"
    if payment_type = "PAYBILL" ∧ profile.mpesa_paybill_number = "" then
      (false, "missing Paybill number")
    else if payment_type = "TILL" ∧ profile.mpesa_till_number = "" then
      (false, "missing Till number")
    else (true, "")

/-- The callback URL as already parsed by `urllib.parse.urlparse` (the
stdlib parse itself is external; `present` is the truthiness of the raw
setting). -/
structure ParsedUrl where
  present : Bool
  scheme : String
  netloc : String
  hostname : String
  deriving DecidableEq

/-- `fishing.views._is_public_callback_url`. -/
def is_public_callback_url (u : ParsedUrl) : Bool :=
  if ¬ u.present then false
  else if ¬ (u.scheme = "http" ∨ u.scheme = "https") ∨ u.netloc = "" then false
  else if u.hostname = "localhost" ∨ u.hostname = "127.0.0.1"
       ∨ u.hostname = "0.0.0.0" then false
  else true

/-- The POSTed checkout form fields consumed by `checkout_process`. -/
structure CheckoutForm where
  fulfillment_method : String
  delivery_location : String
  delivery_address : String
  delivery_notes : String
  pickup_point : Option Nat
  deriving DecidableEq

/-- Outcome of one `initiate_stk_push` gateway call (the Payment Gateway
Client is an external collaborator; checkout consumes only these keys). -/
inductive StkResult
  | ok (merchant_request_id : String) (checkout_request_id : String)
  | err (msg : String)
  deriving DecidableEq

/-- Result of `checkout_process` as seen by the caller: an error redirect
with its message, a pickup-point 404, or the created order id together with
the per-line charge-issuance error list. -/
inductive CheckoutOutcome
  | errorRedirect (msg : String)
  | notFound
  | created (order_id : Nat) (payment_errors : List String)
  deriving DecidableEq

/-- The per-item validation loop of `checkout_process`.  Mutations to the
fisherman profiles (auto-verify, M-Pesa phone backfill) are saved item by
item, so an error on a later item leaves earlier mutations in place; the
possibly-mutated database is returned together with the error message. -/
def validateItems (user : User) : DB → List CartItem → DB × Option String
  | db, [] => (db, none)
  | db, item :: rest =>
    match db.fishes.find? (fun f => f.id == item.fish_id) with
    | none => (db, some "Cart item fish missing.")
    | some fish =>
      if item.weight_kg ≤ 0 then
        (db, some ("Invalid weight for " ++ fish.name ++ "."))
      else if fish.price_per_kg ≤ 0 then
        (db, some ("Invalid price-per-kg for " ++ fish.name ++ "."))
      else if item.weight_kg > fish.available_weight ∨ ¬ fish.is_available then
        (db, some (fish.name ++ " is no longer available in requested weight."))
      else
        match db.profiles.find? (fun p => p.user_id == fish.fisherman_id) with
        | none => (db, some ("Fisherman profile missing for " ++ fish.name ++ "."))
        | some profile =>
          match db.users.find? (fun u => u.id == fish.fisherman_id) with
          | none => (db, some ("Fisherman profile missing for " ++ fish.name ++ "."))
          | some fisher =>
            let ready := fisherman_payment_ready profile fisher
            if ¬ ready.1 then
              (db, some ("Fisherman for " ++ fish.name ++ " is not payment-ready ("
                ++ ready.2 ++ ")."))
            else
              let db1 :=
                if ¬ profile.is_verified then
                  let ps :=
                    updateFirst (fun p => p.user_id == fish.fisherman_id)
                      (fun p => { p with is_verified := true }) db.profiles
                  { db with profiles := ps }
                else db
              let db2 :=
                if profile.mpesa_phone = "" then
                  let ps :=
                    updateFirst (fun p => p.user_id == fish.fisherman_id)
                      (fun p => { p with mpesa_phone := strOr profile.phone fisher.phone })
                      db1.profiles
                  { db1 with profiles := ps }
                else db1
              validateItems user db2 rest

/-- The order-item creation loop of `checkout_process`: one `OrderItem`
(with `OrderItem.save` freezing total/fee/net) plus one RESERVED audit log
entry per cart line. -/
def createItemsLoop (order_id : Nat) (order_number : String)
    (customer_id : Nat) : DB → List CartItem → DB
  | db, [] => db
  | db, c :: rest =>
    match db.fishes.find? (fun f => f.id == c.fish_id) with
    | none => createItemsLoop order_id order_number customer_id db rest
    | some fish =>
      match OrderItem.save_financials c.weight_kg fish.price_per_kg with
      | .error _ => createItemsLoop order_id order_number customer_id db rest
      | .ok (total, fee, net) =>
        let iid := db.next_id
        let item : OrderItem :=
          { id := iid, order_id := order_id, fish_id := fish.id,
            fisherman_id := fish.fisherman_id, fish_name := fish.name,
            weight_kg := c.weight_kg, price_per_kg := fish.price_per_kg,
            total_price := total, platform_fee := fee,
            fisherman_net_payout := net, fulfillment_status := "PENDING" }
        let log1 : FishTransactionLog :=
          { fish_id := some fish.id, action := "RESERVED",
            user_id := some customer_id, weight_change := some c.weight_kg,
            notes := "Reserved for Order #" ++ order_number }
        let db1 := { db with order_items := db.order_items ++ [item],
                             fish_logs := db.fish_logs ++ [log1],
                             next_id := iid + 1 }
        createItemsLoop order_id order_number customer_id db1 rest

/-- The `PaymentTransaction` recorded for one line, depending on the
gateway outcome: PENDING keyed by the gateway ids on success, FAILED under
the synthetic local id on failure. -/
def issuedTxn (order : Order) (user : User) (tid : Nat) (it : OrderItem) :
    StkResult → PaymentTransaction
  | .ok mrid crid =>
    { id := tid, order_id := order.id, order_item_id := some it.id,
      buyer_id := user.id, fisherman_id := it.fisherman_id,
      transaction_id := strOr mrid (order.order_number ++ "-" ++ toString it.id),
      mpesa_receipt_number := "", amount := it.total_price,
      unit_price_per_kg := it.price_per_kg, weight_kg := it.weight_kg,
      platform_fee := it.platform_fee, net_payout := it.fisherman_net_payout,
      phone_number := user.phone, status := "PENDING", result_code := none,
      result_desc := "", merchant_request_id := mrid,
      checkout_request_id := crid }
  | .err msg =>
    { id := tid, order_id := order.id, order_item_id := some it.id,
      buyer_id := user.id, fisherman_id := it.fisherman_id,
      transaction_id := "FAILED-" ++ order.order_number ++ "-" ++ toString it.id,
      mpesa_receipt_number := "", amount := it.total_price,
      unit_price_per_kg := it.price_per_kg, weight_kg := it.weight_kg,
      platform_fee := it.platform_fee, net_payout := it.fisherman_net_payout,
      phone_number := user.phone, status := "FAILED", result_code := none,
      result_desc := msg, merchant_request_id := "",
      checkout_request_id := "" }

/-- The charge-issuance loop of `checkout_process`: one gateway request per
order line, recording one `issuedTxn` each and collecting the per-line
error messages. -/
def issueCharges (order : Order) (user : User) (gw : Nat → StkResult) :
    DB → List OrderItem → Nat → DB × List String
  | db, [], _ => (db, [])
  | db, it :: rest, idx =>
    let tid := db.next_id
    let txn := issuedTxn order user tid it (gw idx)
    let db1 := { db with transactions := db.transactions ++ [txn],
                         next_id := tid + 1 }
    match gw idx with
    | .ok _ _ => issueCharges order user gw db1 rest (idx + 1)
    | .err msg =>
      let res := issueCharges order user gw db1 rest (idx + 1)
      (res.1, (it.fish_name ++ ": " ++ msg) :: res.2)

/-- The post-validation phase of `checkout_process`: create the order, its
line items and audit entries, compute order financials, issue one charge
per line, clear the cart, and mark the order FAILED when any issuance
failed. -/
def runCheckoutCreate (db : DB) (user : User) (form : CheckoutForm)
    (pickup : Option Nat) (items : List CartItem) (gw : Nat → StkResult) :
    DB × CheckoutOutcome :=
  let oid := db.next_id
  let onum := toString oid
  let order0 : Order :=
    { id := oid, order_number := onum, customer_id := user.id,
      status := "PENDING", total_amount := 0, platform_fee := 0,
      fishermen_net_amount := 0, fulfillment_method := form.fulfillment_method,
      pickup_point := pickup, delivery_location := form.delivery_location,
      delivery_address := form.delivery_address,
      delivery_notes := form.delivery_notes, customer_phone := user.phone }
  let db1 := { db with orders := db.orders ++ [order0], next_id := oid + 1 }
  let db2 := createItemsLoop oid onum user.id db1 items
  let myItems := db2.order_items.filter (fun it => it.order_id == oid)
  let orders1 :=
    updateFirst (fun o => o.id == oid)
      (fun o => Order.calculate_financials o myItems) db2.orders
  let db3 := { db2 with orders := orders1 }
  let res := issueCharges (Order.calculate_financials order0 myItems) user gw db3 myItems 0
  let db4 := res.1
  let perrs := res.2
  let db5 := { db4 with cart_items :=
    db4.cart_items.filter (fun c => ¬ c.user_id == user.id) }
  if perrs.isEmpty then (db5, .created oid perrs)
  else
    let orders2 :=
      updateFirst (fun o => o.id == oid)
        (fun o => { o with status := "FAILED" }) db5.orders
    ({ db5 with orders := orders2 }, .created oid perrs)

/-- `fishing.views.checkout_process`: validate, then create the order, the
line items and the per-line charge requests.  `gw` is the Payment Gateway
Client, giving the outcome of the i-th line's `initiate_stk_push`. -/
def checkout_process (db : DB) (user : User) (form : CheckoutForm)
    (gw : Nat → StkResult) (cfg : ParsedUrl) : DB × CheckoutOutcome :=
  let items := db.cart_items.filter (fun c => c.user_id == user.id)
  if items.isEmpty then (db, .errorRedirect "Your cart is empty.")
  else if user.role = "customer" ∧ ¬ user.email_verified then
    (db, .errorRedirect "Please verify your email before checkout.")
  else if ¬ is_public_callback_url cfg then
    (db, .errorRedirect "Payment callback URL is not publicly accessible.")
  else if form.fulfillment_method = "delivery" ∧ form.delivery_location = "" then
    (db, .errorRedirect "Please provide a delivery location.")
  else if form.fulfillment_method = "pickup" ∧ form.pickup_point = none then
    (db, .errorRedirect "Please select a pickup point.")
  else
    let vres := validateItems user db items
    match vres.2 with
    | some msg => (vres.1, .errorRedirect msg)
    | none =>
      match form.pickup_point with
      | some pid =>
        if vres.1.pickup_points.any (fun p => p.id == pid) then
          runCheckoutCreate vres.1 user form (some pid) items gw
        else (vres.1, .notFound)
      | none => runCheckoutCreate vres.1 user form none items gw

end Rechiro

namespace Rechiro

/-- Claim C10: `Fish.reduce_stock` refuses oversize requests unchanged,
otherwise deducts exactly the requested weight (never going negative) and
marks the listing sold exactly when the remaining weight is ≤ 0. -/
theorem reduce_stock_spec (f : Fish) (w : Int) :
    (¬ w ≤ f.available_weight → f.reduce_stock w = (f, false)) ∧
    (w ≤ f.available_weight →
      (f.reduce_stock w).2 = true ∧
      (f.reduce_stock w).1.available_weight = f.available_weight - w ∧
      0 ≤ (f.reduce_stock w).1.available_weight ∧
      (f.reduce_stock w).1.status =
        (if f.available_weight - w ≤ 0 then "sold" else f.status)) := by
  constructor
  · intro h
    simp [Fish.reduce_stock, h]
  · intro h
    refine ⟨?_, ?_, ?_, ?_⟩
    · simp [Fish.reduce_stock, h]
    · simp [Fish.reduce_stock, h]
    · simp only [Fish.reduce_stock, h, if_true]
      omega
    · simp [Fish.reduce_stock, h]

/-- Witness for C10: both branches of `reduce_stock_spec` evaluated on a
concrete listing (12.00 kg available at 8.50/kg). -/
theorem reduce_stock_spec_witness :
    ((Fish.mk 1 2 "tilapia" 850 1200 "available").reduce_stock 1500 =
      (Fish.mk 1 2 "tilapia" 850 1200 "available", false)) ∧
    ((Fish.mk 1 2 "tilapia" 850 1200 "available").reduce_stock 500).1.available_weight = 700 := by
  refine ⟨(reduce_stock_spec (Fish.mk 1 2 "tilapia" 850 1200 "available") 1500).1 (by decide), ?_⟩
  have h := ((reduce_stock_spec (Fish.mk 1 2 "tilapia" 850 1200 "available") 500).2 (by decide)).2.1
  simpa using h

/-! ### C4 — per-line fee rounding versus order-level fee rounding -/

theorem roundHalfEven_of_dvd (n d : Int) (hd : 0 < d) (hdvd : d ∣ n) :
    roundHalfEven n d = n / d := by
  have hr : n % d = 0 := Int.emod_eq_zero_of_dvd hdvd
  simp [roundHalfEven, hr, hd]

theorem foldl_add_eq_sum {α : Type} (f : α → Int) (l : List α) (a : Int) :
    l.foldl (fun acc it => acc + f it) a = a + (l.map f).sum := by
  induction l generalizing a with
  | nil => simp
  | cons x xs ih => simp [ih]; ring

theorem sum_ediv_of_dvd (d : Int) (l : List Int) (h : ∀ x ∈ l, d ∣ x) :
    l.sum / d = (l.map (fun x => x / d)).sum := by
  induction l with
  | nil => simp
  | cons x xs ih =>
    have hx : d ∣ x := h x (List.mem_cons_self x xs)
    have hxs : ∀ y ∈ xs, d ∣ y := fun y hy => h y (List.mem_cons_of_mem x hy)
    simp only [List.sum_cons, List.map_cons]
    rw [Int.add_ediv_of_dvd_left hx, ih hxs]

/-- An order line of 1.00 kg at 10.25/kg: line total 10.25, per-line 2% fee
0.205 rounded half-even to 0.20, as frozen by `OrderItem.save`. -/
def c4line : OrderItem :=
  { id := 1, order_id := 1, fish_id := 1, fisherman_id := 1,
    fish_name := "tilapia", weight_kg := 100, price_per_kg := 1025,
    total_price := 1025, platform_fee := 20, fisherman_net_payout := 1005,
    fulfillment_status := "PENDING" }

/-- A blank order to run `Order.calculate_financials` on. -/
def c4order : Order :=
  { id := 1, order_number := "1", customer_id := 1, status := "PENDING",
    total_amount := 0, platform_fee := 0, fishermen_net_amount := 0,
    fulfillment_method := "delivery", pickup_point := none,
    delivery_location := "", delivery_address := "", delivery_notes := "",
    customer_phone := "" }

/-- Counterexample to C4: two lines of 10.25 each.  `OrderItem.save` fixes
each per-line fee at 0.20 (0.205 rounds half-even down), summing to 0.40,
while `Order.calculate_financials` computes the order fee on the gross of
20.50 as 0.41: rounding does not commute with summation. -/
theorem order_fee_ne_sum_line_fees :
    OrderItem.save_financials 100 1025 = .ok (1025, 20, 1005) ∧
    (Order.calculate_financials c4order [c4line, c4line]).platform_fee ≠
      c4line.platform_fee + c4line.platform_fee := by
  refine ⟨rfl, by decide⟩

/-- C4 (amended): the order-level fee equals the sum of the per-line fees
whenever every line's fee needs no rounding (2% of the line total is exact
at 2 decimals, i.e. `100 ∣ 2 * total`); for general line totals the two can
differ (see the counterexample). -/
theorem order_fee_eq_sum_line_fees_of_exact (o : Order) (items : List OrderItem)
    (h : ∀ it ∈ items, it.platform_fee = roundHalfEven (2 * it.total_price) 100 ∧
         (100 : Int) ∣ 2 * it.total_price) :
    (Order.calculate_financials o items).platform_fee =
      items.foldl (fun acc it => acc + it.platform_fee) 0 := by
  have hfold1 : items.foldl (fun acc it => acc + it.total_price) 0
      = (items.map (fun it => it.total_price)).sum := by
    rw [foldl_add_eq_sum]; ring
  have hfold2 : items.foldl (fun acc it => acc + it.platform_fee) 0
      = (items.map (fun it => it.platform_fee)).sum := by
    rw [foldl_add_eq_sum]; ring
  have hdvd : ∀ x ∈ items.map (fun it => 2 * it.total_price), (100 : Int) ∣ x := by
    intro x hx
    rcases List.mem_map.mp hx with ⟨it, hit, rfl⟩
    exact (h it hit).2
  have hsum2 : (items.map (fun it => 2 * it.total_price)).sum
      = 2 * (items.map (fun it => it.total_price)).sum := by
    rw [List.sum_map_mul_left]
  have hdvdsum : (100 : Int) ∣ 2 * (items.map (fun it => it.total_price)).sum := by
    rw [← hsum2]; exact List.dvd_sum hdvd
  have hmain : roundHalfEven (2 * (items.map (fun it => it.total_price)).sum) 100
      = (items.map (fun it => it.platform_fee)).sum := by
    rw [roundHalfEven_of_dvd _ _ (by norm_num) hdvdsum, ← hsum2,
        sum_ediv_of_dvd _ _ hdvd, List.map_map]
    congr 1
    apply List.map_congr_left
    intro it hit
    have h1 := (h it hit).1
    have h2 := (h it hit).2
    simp only [Function.comp]
    rw [h1, roundHalfEven_of_dvd _ _ (by norm_num) h2]
  simp only [Order.calculate_financials]
  rw [hfold1, hmain, hfold2]

/-- Witness for the amended C4: two lines of 10.00 and 24.50 (per-line fees
0.20 and 0.49 both exact), where the order fee 0.69 equals the sum. -/
theorem order_fee_eq_sum_line_fees_of_exact_witness :
    (Order.calculate_financials c4order
      [{ c4line with total_price := 1000, platform_fee := 20 },
       { c4line with total_price := 2450, platform_fee := 49 }]).platform_fee =
      [({ c4line with total_price := 1000, platform_fee := 20 } : OrderItem),
       { c4line with total_price := 2450, platform_fee := 49 }].foldl
        (fun acc it => acc + it.platform_fee) 0 := by
  apply order_fee_eq_sum_line_fees_of_exact
  intro it hit
  simp only [List.mem_cons, List.not_mem_nil, or_false] at hit
  rcases hit with rfl | rfl
  · exact ⟨by decide, by decide⟩
  · exact ⟨by decide, by decide⟩

/-! ### Projection lemmas for the reconciler branches -/

theorem mark_as_paid_transactions (db : DB) (oid : Nat) :
    (Order.mark_as_paid db oid).transactions = db.transactions := by
  simp [Order.mark_as_paid]

theorem deliveryUpdateOrCreate_transactions (db : DB) (oid fid : Nat) (st : String) :
    (deliveryUpdateOrCreate db oid fid st).transactions = db.transactions := by
  unfold deliveryUpdateOrCreate
  split <;> rfl

theorem sellerNotificationGetOrCreate_transactions (db : DB) (n : SellerNotification) :
    (sellerNotificationGetOrCreate db n).transactions = db.transactions := by
  unfold sellerNotificationGetOrCreate
  split <;> rfl

theorem platformFeeLogGetOrCreate_transactions (db : DB) (n : PlatformFeeLog) :
    (platformFeeLogGetOrCreate db n).transactions = db.transactions := by
  unfold platformFeeLogGetOrCreate
  split <;> rfl

theorem sellerNotificationGetOrCreate_orders (db : DB) (n : SellerNotification) :
    (sellerNotificationGetOrCreate db n).orders = db.orders := by
  unfold sellerNotificationGetOrCreate
  split <;> rfl

theorem platformFeeLogGetOrCreate_orders (db : DB) (n : PlatformFeeLog) :
    (platformFeeLogGetOrCreate db n).orders = db.orders := by
  unfold platformFeeLogGetOrCreate
  split <;> rfl

theorem settleOrder_transactions (db2 : DB) (txn : PaymentTransaction)
    (order : Order) :
    (settleOrder db2 txn order).1.transactions = db2.transactions := by
  unfold settleOrder
  dsimp only
  repeat' split
  all_goals
    simp [mark_as_paid_transactions, deliveryUpdateOrCreate_transactions]

theorem settleOrder_status (db2 : DB) (txn : PaymentTransaction)
    (order : Order) :
    (settleOrder db2 txn order).2.status = "success" := by
  unfold settleOrder
  dsimp only
  repeat' split
  all_goals rfl

/-- The transaction written by the success path. -/
def completedTxn (r : CallbackResult) (txn : PaymentTransaction) (ncode : Int) :
    PaymentTransaction :=
  { txn with mpesa_receipt_number := r.transaction_id.getD "",
             result_code := some ncode,
             result_desc := r.result_desc.getD "",
             status := "COMPLETED" }

theorem completePayment_transactions (db : DB) (r : CallbackResult)
    (txn : PaymentTransaction) (order : Order) (cid : String) (ncode : Int) :
    (completePayment db r txn order cid ncode).1.transactions =
      updateFirst (fun t => t.checkout_request_id == cid)
        (fun _ => completedTxn r txn ncode) db.transactions := by
  unfold completePayment completedTxn
  dsimp only
  rw [settleOrder_transactions]
  repeat' split
  all_goals
    simp [sellerNotificationGetOrCreate_transactions,
      platformFeeLogGetOrCreate_transactions]

theorem handleFailure_transactions (db : DB) (r : CallbackResult)
    (txn : PaymentTransaction) (order : Order) (cid : String) (ncode : Int) :
    (handleFailure db r txn order cid ncode).1.transactions =
      updateFirst (fun t => t.checkout_request_id == cid)
        (fun t => { t with status := "FAILED", result_code := some ncode,
                           result_desc := r.result_desc.getD "" })
        db.transactions := by
  unfold handleFailure
  dsimp only
  repeat' split
  all_goals rfl

theorem handleVerification_transactions (db : DB) (r : CallbackResult)
    (v : PhoneVerificationTransaction) (cid : String) :
    (handleVerification db r v cid).1.transactions = db.transactions := by
  unfold handleVerification
  dsimp only
  repeat' split
  all_goals rfl

/-! ### C5 — terminal-state stability of charges -/

theorem handleSuccess_mem_completed (db : DB) (r : CallbackResult)
    (txn : PaymentTransaction) (order : Order) (cid : String) (ncode : Int)
    (hfind : db.transactions.find? (fun t => t.checkout_request_id == cid) = some txn)
    (hcomp : txn.status ≠ "COMPLETED") :
    ∀ t ∈ db.transactions, t.status = "COMPLETED" →
      t ∈ (handleSuccess db r txn order cid ncode).1.transactions := by
  intro t ht hstat
  unfold handleSuccess
  dsimp only
  split
  · exact ht
  · split
    · dsimp only
      rcases updateFirst_mem_or
        (fun t => t.checkout_request_id == cid)
        (fun t => { t with status := "FAILED",
                           result_desc := "Amount mismatch in callback validation",
                           result_code := some ncode })
        db.transactions txn hfind t ht with h | h
      · exact h
      · exact absurd (h ▸ hstat) hcomp
    · rw [completePayment_transactions]
      rcases updateFirst_mem_or _ (fun _ => completedTxn r txn ncode)
        db.transactions txn hfind t ht with h | h
      · exact h
      · exact absurd (h ▸ hstat) hcomp
  · rw [completePayment_transactions]
    rcases updateFirst_mem_or _ (fun _ => completedTxn r txn ncode)
      db.transactions txn hfind t ht with h | h
    · exact h
    · exact absurd (h ▸ hstat) hcomp

theorem handleFailure_mem_completed (db : DB) (r : CallbackResult)
    (txn : PaymentTransaction) (order : Order) (cid : String) (ncode : Int)
    (hfind : db.transactions.find? (fun t => t.checkout_request_id == cid) = some txn)
    (hcomp : txn.status ≠ "COMPLETED") :
    ∀ t ∈ db.transactions, t.status = "COMPLETED" →
      t ∈ (handleFailure db r txn order cid ncode).1.transactions := by
  intro t ht hstat
  rw [handleFailure_transactions]
  rcases updateFirst_mem_or
    (fun t => t.checkout_request_id == cid)
    (fun t => { t with status := "FAILED", result_code := some ncode,
                       result_desc := r.result_desc.getD "" })
    db.transactions txn hfind t ht with h | h
  · exact h
  · exact absurd (h ▸ hstat) hcomp

/-- Claim C5 (amended): a COMPLETED charge is terminal — no later callback
ever modifies it (its row survives every reconciler invocation unchanged).
A FAILED charge, however, is not guarded: a later callback is re-processed
and may overwrite its result fields and even move it to COMPLETED (see the
counterexample). -/
theorem completed_charges_never_change (db : DB) (r : CallbackResult) :
    ∀ t ∈ db.transactions, t.status = "COMPLETED" →
      t ∈ (mpesa_callback db r).1.transactions := by
  intro t ht hstat
  unfold mpesa_callback
  cases hcr : r.checkout_request_id with
  | none => exact ht
  | some cid =>
    dsimp only
    by_cases hcid : cid = ""
    · rw [if_pos hcid]
      exact ht
    · rw [if_neg hcid]
      cases hfind : db.transactions.find? (fun t => t.checkout_request_id == cid) with
      | none =>
        dsimp only
        cases hv : db.verifications.find? (fun v => v.checkout_request_id == cid) with
        | none => exact ht
        | some v =>
          dsimp only
          rw [handleVerification_transactions]
          exact ht
      | some txn =>
        dsimp only
        cases horder : db.orders.find? (fun o => o.id == txn.order_id) with
        | none => exact ht
        | some order =>
          dsimp only
          by_cases hcomp : txn.status = "COMPLETED"
          · rw [if_pos hcomp]
            exact ht
          · rw [if_neg hcomp]
            by_cases hbr : normalizeResultCode r.result_code = 0 ∧ r.success = true
            · rw [if_pos hbr]
              exact handleSuccess_mem_completed db r txn order cid
                (normalizeResultCode r.result_code) hfind hcomp t ht hstat
            · rw [if_neg hbr]
              exact handleFailure_mem_completed db r txn order cid
                (normalizeResultCode r.result_code) hfind hcomp t ht hstat

/-- A charge already in the terminal FAILED state. -/
def c5txn : PaymentTransaction :=
  { id := 7, order_id := 1, order_item_id := none, buyer_id := 100,
    fisherman_id := 10, transaction_id := "T1", mpesa_receipt_number := "",
    amount := 5000, unit_price_per_kg := 0, weight_kg := 0,
    platform_fee := 100, net_payout := 4900, phone_number := "",
    status := "FAILED", result_code := some 1032,
    result_desc := "Request cancelled by user", merchant_request_id := "M1",
    checkout_request_id := "CX" }

def c5order : Order :=
  { id := 1, order_number := "1", customer_id := 100, status := "FAILED",
    total_amount := 5000, platform_fee := 100, fishermen_net_amount := 4900,
    fulfillment_method := "delivery", pickup_point := none,
    delivery_location := "", delivery_address := "", delivery_notes := "",
    customer_phone := "" }

def c5db : DB :=
  { users := [], profiles := [], fishes := [], cart_items := [],
    pickup_points := [], orders := [c5order], order_items := [],
    transactions := [c5txn], verifications := [], deliveries := [],
    fish_logs := [], notifications := [], fee_logs := [], next_id := 8 }

/-- A later success callback for the same checkout request id. -/
def c5cb : CallbackResult :=
  ⟨true, some "CX", .intVal 0, some "ok", none, some "RCPT"⟩

/-- Counterexample to C5: the charge is FAILED — per the claim a terminal
state that never reverts — yet re-delivering a success callback for it
moves it to COMPLETED and overwrites its result fields. -/
theorem failed_charge_reverts_on_later_success :
    c5txn.status = "FAILED" ∧
    ((mpesa_callback c5db c5cb).1.transactions.map (fun t => t.status))
      = ["COMPLETED"] := by
  exact ⟨rfl, by decide⟩

/-- Witness for the amended C5: a concrete COMPLETED charge survives a
duplicate callback unchanged. -/
theorem completed_charges_never_change_witness :
    ({ c5txn with status := "COMPLETED" } : PaymentTransaction) ∈
      (mpesa_callback
        { c5db with transactions := [{ c5txn with status := "COMPLETED" }] }
        c5cb).1.transactions := by
  apply completed_charges_never_change
  · exact List.mem_cons_self _ _
  · rfl

/-! ### C9 — unparseable result codes are failures -/

theorem handleFailure_response (db : DB) (r : CallbackResult)
    (txn : PaymentTransaction) (order : Order) (cid : String) (ncode : Int) :
    (handleFailure db r txn order cid ncode).2 =
      ⟨"failed", r.result_desc.getD "", 200⟩ := by
  unfold handleFailure
  dsimp only

theorem mem_updateFirst_of_neg {α : Type} (p : α → Bool) (f : α → α)
    (l : List α) (x : α) (hx : x ∈ l) (hpx : p x = false) :
    x ∈ updateFirst p f l := by
  induction l with
  | nil => simp at hx
  | cons y ys ih =>
    rcases List.mem_cons.mp hx with hx | hx
    · have hpy : p y = false := hx ▸ hpx
      simp [updateFirst, hpy, hx]
    · by_cases hy : p y
      · simp [updateFirst, hy]
        right; exact hx
      · simp [updateFirst, hy]
        right; exact ih hx

/-- Claim C9: a result code that fails to parse as an integer is normalized
to the sentinel `-1` and the callback is processed as a failure: an already
COMPLETED charge is left untouched by the idempotency guard (so it is never
"completed by" such a callback), and any other matched charge is marked
FAILED with a failure response. -/
theorem unparseable_code_is_failure (db : DB) (r : CallbackResult)
    (cid : String) (txn : PaymentTransaction) (order : Order)
    (hcode : r.result_code = .unparseable)
    (hcid : r.checkout_request_id = some cid) (hcne : cid ≠ "")
    (hfind : db.transactions.find? (fun t => t.checkout_request_id == cid) = some txn)
    (horder : db.orders.find? (fun o => o.id == txn.order_id) = some order) :
    normalizeResultCode r.result_code = -1 ∧
    (txn.status = "COMPLETED" →
      mpesa_callback db r = (db, ⟨"success", "Already processed", 200⟩)) ∧
    (txn.status ≠ "COMPLETED" →
      ((mpesa_callback db r).1.transactions.find?
          (fun t => t.checkout_request_id == cid)).map (fun t => t.status)
        = some "FAILED" ∧
      (mpesa_callback db r).2.status = "failed") := by
  have hn : normalizeResultCode r.result_code = -1 := by rw [hcode]; rfl
  refine ⟨hn, ?_, ?_⟩
  · intro hc
    unfold mpesa_callback
    rw [hcid]
    dsimp only
    rw [if_neg hcne, hfind]
    dsimp only
    rw [horder]
    dsimp only
    rw [if_pos hc]
  · intro hc
    have hcond : ¬ (normalizeResultCode r.result_code = 0 ∧ r.success = true) := by
      rw [hn]; rintro ⟨h1, -⟩; exact absurd h1 (by decide)
    have hred : mpesa_callback db r =
        handleFailure db r txn order cid (normalizeResultCode r.result_code) := by
      unfold mpesa_callback
      rw [hcid]
      dsimp only
      rw [if_neg hcne, hfind]
      dsimp only
      rw [horder]
      dsimp only
      rw [if_neg hc, if_neg hcond]
    have hp := List.find?_some hfind
    constructor
    · rw [hred, handleFailure_transactions]
      rw [find?_updateFirst (fun t => t.checkout_request_id == cid) _
        db.transactions txn hfind hp]
      rfl
    · rw [hred, handleFailure_response]

/-- A callback for the same charge whose result code does not parse. -/
def c9cb : CallbackResult :=
  ⟨true, some "CX", .unparseable, none, none, none⟩

/-- Witness for C9: on a concrete non-COMPLETED charge, an unparseable
result code marks the charge FAILED and answers with a failure payload. -/
theorem unparseable_code_is_failure_witness :
    ((mpesa_callback c5db c9cb).1.transactions.find?
        (fun t => t.checkout_request_id == "CX")).map (fun t => t.status)
      = some "FAILED" ∧
    (mpesa_callback c5db c9cb).2.status = "failed" :=
  (unparseable_code_is_failure c5db c9cb "CX" c5txn c5order rfl rfl
    (by decide) (by decide) (by decide)).2.2 (by decide)

/-! ### C6 — amount-mismatch callbacks -/

/-- Claim C6: a success callback carrying a settled amount different from
the recorded charge amount marks that charge FAILED with the
amount-mismatch reason and answers HTTP 400, while the order rows, the
other charges, the stock and the delivery rows are all left unchanged. -/
theorem amount_mismatch_rejected (db : DB) (r : CallbackResult)
    (cid : String) (txn : PaymentTransaction) (order : Order) (a : Int)
    (hcid : r.checkout_request_id = some cid) (hcne : cid ≠ "")
    (hfind : db.transactions.find? (fun t => t.checkout_request_id == cid) = some txn)
    (horder : db.orders.find? (fun o => o.id == txn.order_id) = some order)
    (hcomp : txn.status ≠ "COMPLETED")
    (hcode : normalizeResultCode r.result_code = 0) (hsucc : r.success = true)
    (hamt : r.amount = some (.cents a)) (hane : a ≠ txn.amount) :
    (mpesa_callback db r).2 = ⟨"error", "Callback amount validation failed", 400⟩ ∧
    ((mpesa_callback db r).1.transactions.find?
        (fun t => t.checkout_request_id == cid)).map
        (fun t => (t.status, t.result_desc))
      = some ("FAILED", "Amount mismatch in callback validation") ∧
    (∀ t ∈ db.transactions, (t.checkout_request_id == cid) = false →
      t ∈ (mpesa_callback db r).1.transactions) ∧
    (mpesa_callback db r).1.orders = db.orders ∧
    (mpesa_callback db r).1.fishes = db.fishes ∧
    (mpesa_callback db r).1.deliveries = db.deliveries := by
  have hcond : normalizeResultCode r.result_code = 0 ∧ r.success = true :=
    ⟨hcode, hsucc⟩
  have hred : mpesa_callback db r =
      handleSuccess db r txn order cid (normalizeResultCode r.result_code) := by
    unfold mpesa_callback
    rw [hcid]
    dsimp only
    rw [if_neg hcne, hfind]
    dsimp only
    rw [horder]
    dsimp only
    rw [if_neg hcomp, if_pos hcond]
  have h2 : (handleSuccess db r txn order cid (normalizeResultCode r.result_code)).2 =
      ⟨"error", "Callback amount validation failed", 400⟩ := by
    unfold handleSuccess
    rw [hamt]
    dsimp only
    rw [if_pos hane]
  have htx : (handleSuccess db r txn order cid (normalizeResultCode r.result_code)).1.transactions =
      updateFirst (fun t => t.checkout_request_id == cid)
        (fun t => { t with status := "FAILED",
                           result_desc := "Amount mismatch in callback validation",
                           result_code := some (normalizeResultCode r.result_code) })
        db.transactions := by
    unfold handleSuccess
    rw [hamt]
    dsimp only
    rw [if_pos hane]
  have hord : (handleSuccess db r txn order cid (normalizeResultCode r.result_code)).1.orders =
      db.orders := by
    unfold handleSuccess
    rw [hamt]
    dsimp only
    rw [if_pos hane]
  have hfsh : (handleSuccess db r txn order cid (normalizeResultCode r.result_code)).1.fishes =
      db.fishes := by
    unfold handleSuccess
    rw [hamt]
    dsimp only
    rw [if_pos hane]
  have hdel : (handleSuccess db r txn order cid (normalizeResultCode r.result_code)).1.deliveries =
      db.deliveries := by
    unfold handleSuccess
    rw [hamt]
    dsimp only
    rw [if_pos hane]
  rw [hred]
  have hp := List.find?_some hfind
  refine ⟨h2, ?_, ?_, hord, hfsh, hdel⟩
  · rw [htx]
    rw [find?_updateFirst (fun t => t.checkout_request_id == cid) _
      db.transactions txn hfind hp]
    rfl
  · intro t ht hne2
    rw [htx]
    exact mem_updateFirst_of_neg _ _ db.transactions t ht hne2

/-! ### C8 — validation failures and checkout state -/

/-- Everything outside the fisherman-profile table agrees between two
database states. -/
def sameExceptProfiles (a b : DB) : Prop :=
  a.users = b.users ∧ a.fishes = b.fishes ∧ a.cart_items = b.cart_items ∧
  a.pickup_points = b.pickup_points ∧ a.orders = b.orders ∧
  a.order_items = b.order_items ∧ a.transactions = b.transactions ∧
  a.verifications = b.verifications ∧ a.deliveries = b.deliveries ∧
  a.fish_logs = b.fish_logs ∧ a.notifications = b.notifications ∧
  a.fee_logs = b.fee_logs ∧ a.next_id = b.next_id

theorem sameExceptProfiles_refl (a : DB) : sameExceptProfiles a a :=
  ⟨rfl, rfl, rfl, rfl, rfl, rfl, rfl, rfl, rfl, rfl, rfl, rfl, rfl⟩

theorem sameExceptProfiles_trans {a b c : DB}
    (h1 : sameExceptProfiles a b) (h2 : sameExceptProfiles b c) :
    sameExceptProfiles a c := by
  obtain ⟨e1, e2, e3, e4, e5, e6, e7, e8, e9, e10, e11, e12, e13⟩ := h1
  obtain ⟨f1, f2, f3, f4, f5, f6, f7, f8, f9, f10, f11, f12, f13⟩ := h2
  exact ⟨e1.trans f1, e2.trans f2, e3.trans f3, e4.trans f4, e5.trans f5,
         e6.trans f6, e7.trans f7, e8.trans f8, e9.trans f9, e10.trans f10,
         e11.trans f11, e12.trans f12, e13.trans f13⟩

/-- The validation loop touches nothing but the fisherman profiles. -/
theorem validateItems_sameExceptProfiles (user : User) (items : List CartItem)
    (db : DB) : sameExceptProfiles (validateItems user db items).1 db := by
  induction items generalizing db with
  | nil => exact sameExceptProfiles_refl db
  | cons item rest ih =>
    unfold validateItems
    dsimp only
    repeat' split
    all_goals try exact sameExceptProfiles_refl db
    all_goals
      refine sameExceptProfiles_trans (ih _) ?_
      exact ⟨rfl, rfl, rfl, rfl, rfl, rfl, rfl, rfl, rfl, rfl, rfl, rfl, rfl⟩

/-- The post-validation phase always reports a created order. -/
theorem runCheckoutCreate_outcome (db : DB) (user : User) (form : CheckoutForm)
    (pickup : Option Nat) (items : List CartItem) (gw : Nat → StkResult) :
    ∃ perrs, (runCheckoutCreate db user form pickup items gw).2 =
      .created db.next_id perrs := by
  unfold runCheckoutCreate
  dsimp only
  split
  · exact ⟨_, rfl⟩
  · exact ⟨_, rfl⟩

/-- Claim C8 (amended): a checkout attempt failing a validation precondition
creates no Order, OrderItem or ChargeRequest and leaves every table except
the fisherman profiles unchanged; the fisherman-profile auto-verification
and M-Pesa phone backfill performed while validating lines before the
failing one do persist (see the counterexample). -/
theorem validation_failure_mutates_nothing_but_profiles
    (db : DB) (user : User) (form : CheckoutForm) (gw : Nat → StkResult)
    (cfg : ParsedUrl) (msg : String)
    (h : (checkout_process db user form gw cfg).2 = .errorRedirect msg) :
    sameExceptProfiles (checkout_process db user form gw cfg).1 db := by
  rcases heqn : checkout_process db user form gw cfg with ⟨dbf, out⟩
  rw [heqn] at h
  dsimp only at h ⊢
  unfold checkout_process at heqn
  dsimp only at heqn
  split at heqn
  · injection heqn with h1 h2
    exact h1 ▸ sameExceptProfiles_refl db
  · split at heqn
    · injection heqn with h1 h2
      exact h1 ▸ sameExceptProfiles_refl db
    · split at heqn
      · injection heqn with h1 h2
        exact h1 ▸ sameExceptProfiles_refl db
      · split at heqn
        · injection heqn with h1 h2
          exact h1 ▸ sameExceptProfiles_refl db
        · split at heqn
          · injection heqn with h1 h2
            exact h1 ▸ sameExceptProfiles_refl db
          · split at heqn
            · injection heqn with h1 h2
              exact h1 ▸ validateItems_sameExceptProfiles user _ db
            · split at heqn
              · split at heqn
                · obtain ⟨perrs, hp⟩ := runCheckoutCreate_outcome
                    (validateItems user db
                      (db.cart_items.filter (fun c => c.user_id == user.id))).1
                    user form _ (db.cart_items.filter (fun c => c.user_id == user.id)) gw
                  rw [heqn] at hp
                  dsimp only at hp
                  rw [hp] at h
                  exact absurd h (by simp)
                · injection heqn with h1 h2
                  rw [← h2] at h
                  exact absurd h (by simp)
              · obtain ⟨perrs, hp⟩ := runCheckoutCreate_outcome
                  (validateItems user db
                    (db.cart_items.filter (fun c => c.user_id == user.id))).1
                  user form none (db.cart_items.filter (fun c => c.user_id == user.id)) gw
                rw [heqn] at hp
                dsimp only at hp
                rw [hp] at h
                exact absurd h (by simp)

/-- Concrete marketplace data used by the checkout scenarios: two listings
by two fishermen, a verified customer with a two-line cart. -/
def exFish1 : Fish := ⟨1, 10, "tilapia", 10000, 1000, "available"⟩

def exFish2 : Fish := ⟨2, 11, "catfish", 5000, 2000, "available"⟩

def exUser : User := ⟨100, "customer", "0712345678", true, true⟩

def exFisher1 : User := ⟨10, "fisherman", "0700000001", true, true⟩

def exFisher2 : User := ⟨11, "fisherman", "0700000002", true, true⟩

/-- Fisherman 10 is payment-ready but not yet verified. -/
def exProf1 : FishermanProfile :=
  ⟨10, "0700000001", false, "0700000001", "STK_PUSH", "", ""⟩

def exProf2 : FishermanProfile :=
  ⟨11, "0700000002", true, "0700000002", "STK_PUSH", "", ""⟩

def exDb : DB :=
  { users := [exUser, exFisher1, exFisher2], profiles := [exProf1, exProf2],
    fishes := [exFish1, exFish2],
    cart_items := [⟨100, 1, 1000⟩, ⟨100, 2, 200⟩],
    pickup_points := [], orders := [], order_items := [], transactions := [],
    verifications := [], deliveries := [], fish_logs := [], notifications := [],
    fee_logs := [], next_id := 50 }

def exUrl : ParsedUrl := ⟨true, "https", "example.com", "example.com"⟩

def exForm : CheckoutForm := ⟨"delivery", "Beach Rd", "", "", none⟩

def exGw : Nat → StkResult :=
  fun i => .ok ("M" ++ toString i) ("C" ++ toString i)

/-- The same cart but with a zero-weight second line. -/
def c8db : DB := { exDb with cart_items := [⟨100, 1, 1000⟩, ⟨100, 2, 0⟩] }

/-- Counterexample to C8: the second cart line fails weight validation, so
checkout returns an error and creates nothing — but the first line was
validated before it, and its fisherman profile was auto-verified and saved:
existing state IS mutated by a failing checkout. -/
theorem validation_failure_still_mutates_profiles :
    (checkout_process c8db exUser exForm exGw exUrl).2 =
      .errorRedirect "Invalid weight for catfish." ∧
    (checkout_process c8db exUser exForm exGw exUrl).1.profiles ≠ c8db.profiles := by
  exact ⟨by decide, by decide⟩

/-- Witness for the amended C8 on the same failing checkout. -/
theorem validation_failure_mutates_nothing_but_profiles_witness :
    sameExceptProfiles (checkout_process c8db exUser exForm exGw exUrl).1 c8db :=
  validation_failure_mutates_nothing_but_profiles c8db exUser exForm exGw exUrl
    "Invalid weight for catfish." (by decide)

/-! ### C1 — idempotence of the duplicate success callback -/

theorem find?_isSome_updateFirst {α : Type} (p q : α → Bool) (g : α → α)
    (hg : ∀ x, p (g x) = p x) (l : List α) :
    (List.find? p (updateFirst q g l)).isSome = (List.find? p l).isSome := by
  induction l with
  | nil => rfl
  | cons y ys ih =>
    by_cases hy : q y
    · simp only [updateFirst, hy, if_true, List.find?]
      cases hp : p y with
      | true => simp [hg y, hp]
      | false => simp [hg y, hp]
    · simp only [updateFirst, hy, if_false, List.find?]
      cases hp : p y with
      | true => simp [hp]
      | false => simp [hp, ih]

theorem mark_as_paid_notifications (db : DB) (oid : Nat) :
    (Order.mark_as_paid db oid).notifications = db.notifications := by
  simp [Order.mark_as_paid]

theorem mark_as_paid_fee_logs (db : DB) (oid : Nat) :
    (Order.mark_as_paid db oid).fee_logs = db.fee_logs := by
  simp [Order.mark_as_paid]

theorem deliveryUpdateOrCreate_notifications (db : DB) (oid fid : Nat)
    (st : String) :
    (deliveryUpdateOrCreate db oid fid st).notifications = db.notifications := by
  unfold deliveryUpdateOrCreate
  split <;> rfl

theorem deliveryUpdateOrCreate_fee_logs (db : DB) (oid fid : Nat)
    (st : String) :
    (deliveryUpdateOrCreate db oid fid st).fee_logs = db.fee_logs := by
  unfold deliveryUpdateOrCreate
  split <;> rfl

theorem deliveryUpdateOrCreate_orders (db : DB) (oid fid : Nat) (st : String) :
    (deliveryUpdateOrCreate db oid fid st).orders = db.orders := by
  unfold deliveryUpdateOrCreate
  split <;> rfl

theorem mark_as_paid_orders (db : DB) (oid : Nat) :
    (Order.mark_as_paid db oid).orders =
      updateFirst (fun o => o.id == oid)
        (fun o => { o with status := "FULLY_PAID" }) db.orders := by
  simp [Order.mark_as_paid]

/-- Reduction of the reconciler to its success branch. -/
theorem mpesa_callback_success_red (db : DB) (r : CallbackResult)
    (cid : String) (txn : PaymentTransaction) (order : Order)
    (hcid : r.checkout_request_id = some cid) (hcne : cid ≠ "")
    (hfind : db.transactions.find? (fun t => t.checkout_request_id == cid) = some txn)
    (horder : db.orders.find? (fun o => o.id == txn.order_id) = some order)
    (hcomp : txn.status ≠ "COMPLETED")
    (hcond : normalizeResultCode r.result_code = 0 ∧ r.success = true) :
    mpesa_callback db r =
      handleSuccess db r txn order cid (normalizeResultCode r.result_code) := by
  unfold mpesa_callback
  rw [hcid]
  dsimp only
  rw [if_neg hcne, hfind]
  dsimp only
  rw [horder]
  dsimp only
  rw [if_neg hcomp, if_pos hcond]

/-- Reduction of the success branch past amount validation when no amount is
attached or the attached amount matches. -/
theorem handleSuccess_amount_ok_red (db : DB) (r : CallbackResult)
    (txn : PaymentTransaction) (order : Order) (cid : String) (ncode : Int)
    (hamt : r.amount = none ∨ r.amount = some (.cents txn.amount)) :
    handleSuccess db r txn order cid ncode =
      completePayment db r txn order cid ncode := by
  unfold handleSuccess
  rcases hamt with h | h
  · rw [h]
  · rw [h]
    dsimp only
    rw [if_neg (by simp)]

/-- Preservation of order lookups by the success completion path. -/
theorem completePayment_orders_find_isSome (db : DB) (r : CallbackResult)
    (txn : PaymentTransaction) (order : Order) (cid : String) (ncode : Int)
    (k : Nat) :
    (List.find? (fun o => o.id == k)
        (completePayment db r txn order cid ncode).1.orders).isSome =
      (List.find? (fun o => o.id == k) db.orders).isSome := by
  have hsettle : ∀ db2 : DB,
      (List.find? (fun o => o.id == k) (settleOrder db2 txn order).1.orders).isSome =
        (List.find? (fun o => o.id == k) db2.orders).isSome := by
    intro db2
    unfold settleOrder
    dsimp only
    repeat' split
    all_goals
      simp only [deliveryUpdateOrCreate_orders, mark_as_paid_orders]
    all_goals
      first
        | rfl
        | (rw [find?_isSome_updateFirst (fun (o : Order) => o.id == k)
              (fun (o : Order) => o.id == order.id)
              (fun (o : Order) => { o with status := "PAID" }) (fun o => rfl)])
        | (rw [find?_isSome_updateFirst (fun (o : Order) => o.id == k)
              (fun (o : Order) => o.id == order.id)
              (fun (o : Order) => { o with status := "DELIVERY_IN_PROGRESS" }) (fun o => rfl),
            find?_isSome_updateFirst (fun (o : Order) => o.id == k)
              (fun (o : Order) => o.id == order.id)
              (fun (o : Order) => { o with status := "FULLY_PAID" }) (fun o => rfl)])
  unfold completePayment
  dsimp only
  rw [hsettle]
  repeat' split
  all_goals
    simp [sellerNotificationGetOrCreate_orders, platformFeeLogGetOrCreate_orders]

theorem settleOrder_notifications (db2 : DB) (txn : PaymentTransaction)
    (order : Order) :
    (settleOrder db2 txn order).1.notifications = db2.notifications := by
  unfold settleOrder
  dsimp only
  repeat' split
  all_goals
    simp [mark_as_paid_notifications, deliveryUpdateOrCreate_notifications]

theorem settleOrder_fee_logs (db2 : DB) (txn : PaymentTransaction)
    (order : Order) :
    (settleOrder db2 txn order).1.fee_logs = db2.fee_logs := by
  unfold settleOrder
  dsimp only
  repeat' split
  all_goals
    simp [mark_as_paid_fee_logs, deliveryUpdateOrCreate_fee_logs]

/-- The seller notification row created for a completed charge. -/
def notifFor (r : CallbackResult) (txn : PaymentTransaction) (order : Order)
    (item : OrderItem) : SellerNotification :=
  { fisherman_id := txn.fisherman_id, buyer_id := order.customer_id,
    order_id := order.id, payment_transaction_id := txn.id,
    fish_item := item.fish_name, weight_kg := txn.weight_kg,
    total_amount := txn.amount, net_earnings := txn.net_payout,
    receipt_number := r.transaction_id.getD "",
    message := "Payment received for " ++ item.fish_name }

/-- The platform-fee ledger row created for a completed charge. -/
def feeLogFor (txn : PaymentTransaction) (order : Order) : PlatformFeeLog :=
  { order_id := order.id, payment_transaction_id := txn.id,
    fisherman_id := txn.fisherman_id, fee_amount := txn.platform_fee,
    gross_amount := txn.amount, net_amount := txn.net_payout }

theorem count_zero_any_false {α : Type} (p : α → Bool) (l : List α)
    (h : (l.filter p).length = 0) : l.any p = false := by
  rw [List.any_eq_false]
  intro x hx hpx
  have hnil := List.length_eq_zero.mp h
  have hmem : x ∈ l.filter p := List.mem_filter.mpr ⟨hx, hpx⟩
  rw [hnil] at hmem
  exact absurd hmem (List.not_mem_nil x)

/-- The first success completion for a charge whose line item is not yet
PAID emits exactly one seller notification and one platform-fee ledger
entry. -/
theorem completePayment_ledger (db : DB) (r : CallbackResult)
    (txn : PaymentTransaction) (order : Order) (cid : String) (ncode : Int)
    (iid : Nat) (item : OrderItem)
    (hitem : txn.order_item_id = some iid)
    (hfindit : db.order_items.find? (fun it => it.id == iid) = some item)
    (hpaid : item.fulfillment_status ≠ "PAID")
    (hnany : db.notifications.any (fun x =>
      x.fisherman_id == txn.fisherman_id && x.buyer_id == order.customer_id &&
      x.order_id == order.id && x.payment_transaction_id == txn.id) = false)
    (hfany : db.fee_logs.any (fun x =>
      x.order_id == order.id && x.payment_transaction_id == txn.id) = false) :
    (completePayment db r txn order cid ncode).1.notifications =
      db.notifications ++ [notifFor r txn order item] ∧
    (completePayment db r txn order cid ncode).1.fee_logs =
      db.fee_logs ++ [feeLogFor txn order] ∧
    (completePayment db r txn order cid ncode).2.status = "success" := by
  unfold completePayment
  dsimp only
  rw [hitem]
  dsimp only
  rw [hfindit]
  dsimp only
  rw [if_pos hpaid]
  unfold sellerNotificationGetOrCreate
  dsimp only
  split
  · next hct =>
      rw [hnany] at hct
      exact absurd hct (by decide)
  · unfold platformFeeLogGetOrCreate
    dsimp only
    split
    · next hct =>
        rw [hfany] at hct
        exact absurd hct (by decide)
    · exact ⟨by rw [settleOrder_notifications]; rfl,
        by rw [settleOrder_fee_logs]; rfl, settleOrder_status _ _ _⟩

/-- Number of seller notifications keyed to the given charge. -/
def notifCountFor (db : DB) (txn : PaymentTransaction) (order : Order) : Nat :=
  (db.notifications.filter (fun x =>
    x.fisherman_id == txn.fisherman_id && x.buyer_id == order.customer_id &&
    x.order_id == order.id && x.payment_transaction_id == txn.id)).length

/-- Number of platform-fee ledger entries keyed to the given charge. -/
def feeCountFor (db : DB) (txn : PaymentTransaction) (order : Order) : Nat :=
  (db.fee_logs.filter (fun x =>
    x.order_id == order.id && x.payment_transaction_id == txn.id)).length

/-- Claim C1: processing a success callback for a PENDING charge answers
success, completes the charge, and leaves exactly one seller notification
and one platform-fee ledger entry for it; re-delivering the identical
callback is then a pure no-op returning success: the database — charge,
order, stock, delivery, ledger — is returned entirely unchanged. -/
theorem duplicate_success_callback_idempotent (db : DB) (r : CallbackResult)
    (cid : String) (txn : PaymentTransaction) (order : Order) (iid : Nat)
    (item : OrderItem)
    (hcid : r.checkout_request_id = some cid) (hcne : cid ≠ "")
    (hfind : db.transactions.find? (fun t => t.checkout_request_id == cid) = some txn)
    (horder : db.orders.find? (fun o => o.id == txn.order_id) = some order)
    (hpend : txn.status = "PENDING")
    (hcode : normalizeResultCode r.result_code = 0) (hsucc : r.success = true)
    (hamt : r.amount = none ∨ r.amount = some (.cents txn.amount))
    (hitem : txn.order_item_id = some iid)
    (hfindit : db.order_items.find? (fun it => it.id == iid) = some item)
    (hpaid : item.fulfillment_status ≠ "PAID")
    (hn0 : notifCountFor db txn order = 0)
    (hf0 : feeCountFor db txn order = 0) :
    (mpesa_callback db r).2.status = "success" ∧
    ((mpesa_callback db r).1.transactions.find?
        (fun t => t.checkout_request_id == cid)).map (fun t => t.status)
      = some "COMPLETED" ∧
    notifCountFor (mpesa_callback db r).1 txn order = 1 ∧
    feeCountFor (mpesa_callback db r).1 txn order = 1 ∧
    mpesa_callback (mpesa_callback db r).1 r =
      ((mpesa_callback db r).1, ⟨"success", "Already processed", 200⟩) := by
  have hcomp : txn.status ≠ "COMPLETED" := by rw [hpend]; decide
  have hred := mpesa_callback_success_red db r cid txn order hcid hcne hfind
    horder hcomp ⟨hcode, hsucc⟩
  have hred2 := handleSuccess_amount_ok_red db r txn order cid
    (normalizeResultCode r.result_code) hamt
  have hnany := count_zero_any_false _ _ hn0
  have hfany := count_zero_any_false _ _ hf0
  obtain ⟨hnotif, hfee, hstat⟩ := completePayment_ledger db r txn order cid
    (normalizeResultCode r.result_code) iid item hitem hfindit hpaid hnany hfany
  have htx1 : (mpesa_callback db r).1.transactions =
      updateFirst (fun t => t.checkout_request_id == cid)
        (fun _ => completedTxn r txn (normalizeResultCode r.result_code))
        db.transactions := by
    rw [hred, hred2, completePayment_transactions]
  have hfind2 : (mpesa_callback db r).1.transactions.find?
      (fun t => t.checkout_request_id == cid)
        = some (completedTxn r txn (normalizeResultCode r.result_code)) := by
    rw [htx1]
    have hp0 := List.find?_some hfind
    have hp : ((completedTxn r txn (normalizeResultCode r.result_code)).checkout_request_id == cid)
        = true := hp0
    exact find?_updateFirst _ _ _ txn hfind hp
  have horder2 : ((mpesa_callback db r).1.orders.find?
      (fun o => o.id == txn.order_id)).isSome = true := by
    rw [hred, hred2, completePayment_orders_find_isSome, horder]
    rfl
  refine ⟨by rw [hred, hred2]; exact hstat, by rw [hfind2]; rfl, ?_, ?_, ?_⟩
  · unfold notifCountFor
    rw [hred, hred2, hnotif, List.filter_append]
    unfold notifCountFor at hn0
    rw [List.length_append, hn0]
    simp [notifFor]
  · unfold feeCountFor
    rw [hred, hred2, hfee, List.filter_append]
    unfold feeCountFor at hf0
    rw [List.length_append, hf0]
    simp [feeLogFor]
  · generalize hX : (mpesa_callback db r).1 = db1 at hfind2 horder2 ⊢
    obtain ⟨o2, ho2⟩ := Option.isSome_iff_exists.mp horder2
    unfold mpesa_callback
    rw [hcid]
    dsimp only
    rw [if_neg hcne, hfind2]
    dsimp only [completedTxn]
    rw [ho2]
    dsimp only
    rw [if_pos rfl]

/-- A one-line order of 10.00, paid to fisherman 10, its charge PENDING. -/
def w1item : OrderItem :=
  { id := 2, order_id := 1, fish_id := 1, fisherman_id := 10,
    fish_name := "tilapia", weight_kg := 100, price_per_kg := 1000,
    total_price := 1000, platform_fee := 20, fisherman_net_payout := 980,
    fulfillment_status := "PENDING" }

def w1txn : PaymentTransaction :=
  { id := 3, order_id := 1, order_item_id := some 2, buyer_id := 100,
    fisherman_id := 10, transaction_id := "M1", mpesa_receipt_number := "",
    amount := 1000, unit_price_per_kg := 1000, weight_kg := 100,
    platform_fee := 20, net_payout := 980, phone_number := "0712",
    status := "PENDING", result_code := none, result_desc := "",
    merchant_request_id := "M1", checkout_request_id := "CW" }

def w1order : Order :=
  { id := 1, order_number := "1", customer_id := 100, status := "PENDING",
    total_amount := 1000, platform_fee := 20, fishermen_net_amount := 980,
    fulfillment_method := "pickup", pickup_point := some 5,
    delivery_location := "", delivery_address := "", delivery_notes := "",
    customer_phone := "0712" }

def w1fish : Fish := ⟨1, 10, "tilapia", 1000, 500, "available"⟩

def w1db : DB :=
  { users := [], profiles := [], fishes := [w1fish], cart_items := [],
    pickup_points := [], orders := [w1order], order_items := [w1item],
    transactions := [w1txn], verifications := [], deliveries := [],
    fish_logs := [], notifications := [], fee_logs := [], next_id := 4 }

def w1cb : CallbackResult :=
  ⟨true, some "CW", .intVal 0, some "ok", none, some "R1"⟩

/-- Witness for C1 on the concrete one-line order: the first delivery emits
one notification, and the duplicate delivery is a pure no-op. -/
theorem duplicate_success_callback_idempotent_witness :
    notifCountFor (mpesa_callback w1db w1cb).1 w1txn w1order = 1 ∧
    mpesa_callback (mpesa_callback w1db w1cb).1 w1cb =
      ((mpesa_callback w1db w1cb).1, ⟨"success", "Already processed", 200⟩) := by
  have h := duplicate_success_callback_idempotent w1db w1cb "CW" w1txn w1order
    2 w1item rfl (by decide) (by decide) (by decide) rfl rfl rfl
    (Or.inl rfl) rfl (by decide) (by decide) (by decide) (by decide)
  exact ⟨h.2.2.1, h.2.2.2.2⟩

/-! ### C2 — FULLY_PAID gating of stock deduction and delivery creation -/

/-- Number of PENDING charge requests of an order. -/
def pendingCount (db : DB) (oid : Nat) : Nat :=
  (db.transactions.filter
    (fun t => t.order_id == oid && t.status == "PENDING")).length

/-- Number of FAILED charge requests of an order. -/
def failedCount (db : DB) (oid : Nat) : Nat :=
  (db.transactions.filter
    (fun t => t.order_id == oid && t.status == "FAILED")).length

theorem handleVerification_fishes (db : DB) (r : CallbackResult)
    (v : PhoneVerificationTransaction) (cid : String) :
    (handleVerification db r v cid).1.fishes = db.fishes := by
  unfold handleVerification
  dsimp only
  repeat' split
  all_goals rfl

theorem handleVerification_deliveries (db : DB) (r : CallbackResult)
    (v : PhoneVerificationTransaction) (cid : String) :
    (handleVerification db r v cid).1.deliveries = db.deliveries := by
  unfold handleVerification
  dsimp only
  repeat' split
  all_goals rfl

theorem handleFailure_fishes (db : DB) (r : CallbackResult)
    (txn : PaymentTransaction) (order : Order) (cid : String) (ncode : Int) :
    (handleFailure db r txn order cid ncode).1.fishes = db.fishes := by
  unfold handleFailure
  dsimp only
  repeat' split
  all_goals rfl

theorem handleFailure_deliveries (db : DB) (r : CallbackResult)
    (txn : PaymentTransaction) (order : Order) (cid : String) (ncode : Int) :
    (handleFailure db r txn order cid ncode).1.deliveries = db.deliveries := by
  unfold handleFailure
  dsimp only
  repeat' split
  all_goals rfl

theorem sellerNotificationGetOrCreate_fishes (db : DB) (n : SellerNotification) :
    (sellerNotificationGetOrCreate db n).fishes = db.fishes := by
  unfold sellerNotificationGetOrCreate
  split <;> rfl

theorem sellerNotificationGetOrCreate_deliveries (db : DB) (n : SellerNotification) :
    (sellerNotificationGetOrCreate db n).deliveries = db.deliveries := by
  unfold sellerNotificationGetOrCreate
  split <;> rfl

theorem platformFeeLogGetOrCreate_fishes (db : DB) (n : PlatformFeeLog) :
    (platformFeeLogGetOrCreate db n).fishes = db.fishes := by
  unfold platformFeeLogGetOrCreate
  split <;> rfl

theorem platformFeeLogGetOrCreate_deliveries (db : DB) (n : PlatformFeeLog) :
    (platformFeeLogGetOrCreate db n).deliveries = db.deliveries := by
  unfold platformFeeLogGetOrCreate
  split <;> rfl

/-- `settleOrder` touches stock or delivery rows only in its
zero-PENDING-zero-FAILED branch. -/
theorem settleOrder_guard (db2 : DB) (txn : PaymentTransaction) (order : Order)
    (h : (settleOrder db2 txn order).1.fishes ≠ db2.fishes ∨
         (settleOrder db2 txn order).1.deliveries ≠ db2.deliveries) :
    (db2.transactions.filter
      (fun t => t.order_id == order.id && t.status == "PENDING")).length = 0 ∧
    (db2.transactions.filter
      (fun t => t.order_id == order.id && t.status == "FAILED")).length = 0 := by
  revert h
  unfold settleOrder
  dsimp only
  split
  · next hc => intro _; exact hc
  · next hc =>
    split
    · intro h
      rcases h with h | h <;> exact absurd rfl h
    · intro h
      rcases h with h | h <;> exact absurd rfl h

/-- The completion path touches stock or delivery rows only when the order
has zero PENDING and zero FAILED charges remaining afterwards. -/
theorem completePayment_guard (db : DB) (r : CallbackResult)
    (txn : PaymentTransaction) (order : Order) (cid : String) (ncode : Int)
    (h : (completePayment db r txn order cid ncode).1.fishes ≠ db.fishes ∨
         (completePayment db r txn order cid ncode).1.deliveries ≠ db.deliveries) :
    pendingCount (completePayment db r txn order cid ncode).1 order.id = 0 ∧
    failedCount (completePayment db r txn order cid ncode).1 order.id = 0 := by
  revert h
  unfold completePayment pendingCount failedCount
  dsimp only
  repeat' split
  all_goals intro h
  all_goals rw [settleOrder_transactions]
  all_goals
    apply settleOrder_guard
    simpa [sellerNotificationGetOrCreate_fishes, platformFeeLogGetOrCreate_fishes,
      sellerNotificationGetOrCreate_deliveries,
      platformFeeLogGetOrCreate_deliveries] using h

/-- Any reconciler invocation that changes stock or delivery rows was a
matched callback whose order ended with zero PENDING and zero FAILED
charges. -/
theorem mpesa_callback_stock_delivery_guard (db : DB) (r : CallbackResult)
    (h : (mpesa_callback db r).1.fishes ≠ db.fishes ∨
         (mpesa_callback db r).1.deliveries ≠ db.deliveries) :
    ∃ cid txn, r.checkout_request_id = some cid ∧
      db.transactions.find? (fun t => t.checkout_request_id == cid) = some txn ∧
      pendingCount (mpesa_callback db r).1 txn.order_id = 0 ∧
      failedCount (mpesa_callback db r).1 txn.order_id = 0 := by
  rcases heqn : mpesa_callback db r with ⟨dbf, resp⟩
  rw [heqn] at h
  dsimp only at h ⊢
  unfold mpesa_callback at heqn
  split at heqn
  · injection heqn with h1 h2
    rw [← h1] at h
    rcases h with h | h <;> exact absurd rfl h
  · rename_i ocr cid hcr
    split at heqn
    · injection heqn with h1 h2
      rw [← h1] at h
      rcases h with h | h <;> exact absurd rfl h
    · split at heqn
      · split at heqn
        · injection heqn with h1 h2
          rw [← h1] at h
          rcases h with h | h <;> exact absurd rfl h
        · rename_i ov v hv
          have h1 := congrArg Prod.fst heqn
          dsimp only at h1
          rw [← h1, handleVerification_fishes, handleVerification_deliveries] at h
          rcases h with h | h <;> exact absurd rfl h
      · rename_i otx txn hfind
        split at heqn
        · injection heqn with h1 h2
          rw [← h1] at h
          rcases h with h | h <;> exact absurd rfl h
        · rename_i oord order horder
          split at heqn
          · injection heqn with h1 h2
            rw [← h1] at h
            rcases h with h | h <;> exact absurd rfl h
          · dsimp only at heqn
            split at heqn
            · -- success branch
              have hoid : order.id = txn.order_id := by
                have hb := List.find?_some horder
                simpa using hb
              unfold handleSuccess at heqn
              split at heqn
              · injection heqn with h1 h2
                rw [← h1] at h
                rcases h with h | h <;> exact absurd rfl h
              · split at heqn
                · injection heqn with h1 h2
                  rw [← h1] at h
                  dsimp only at h
                  rcases h with h | h <;> exact absurd rfl h
                · have h1 := congrArg Prod.fst heqn
                  dsimp only at h1
                  rw [← h1] at h ⊢
                  have hg := completePayment_guard db r txn order _ _ h
                  exact ⟨cid, txn, hcr, hfind, hoid ▸ hg.1, hoid ▸ hg.2⟩
              · have h1 := congrArg Prod.fst heqn
                dsimp only at h1
                rw [← h1] at h ⊢
                have hg := completePayment_guard db r txn order _ _ h
                exact ⟨cid, txn, hcr, hfind, hoid ▸ hg.1, hoid ▸ hg.2⟩
            · -- failure branch
              have h1 := congrArg Prod.fst heqn
              dsimp only at h1
              rw [← h1, handleFailure_fishes, handleFailure_deliveries] at h
              rcases h with h | h <;> exact absurd rfl h

/-- Line items of the two-seller full-settlement scenario: line 1 already
paid, line 2 awaiting its callback. -/
def fpItem1 (w1 : Int) : OrderItem :=
  { id := 3, order_id := 1, fish_id := 1, fisherman_id := 10,
    fish_name := "tilapia", weight_kg := w1, price_per_kg := 1000,
    total_price := 1000, platform_fee := 20, fisherman_net_payout := 980,
    fulfillment_status := "PAID" }

def fpItem2 (w2 : Int) : OrderItem :=
  { id := 4, order_id := 1, fish_id := 2, fisherman_id := 11,
    fish_name := "catfish", weight_kg := w2, price_per_kg := 2000,
    total_price := 2000, platform_fee := 40, fisherman_net_payout := 1960,
    fulfillment_status := "PENDING" }

def fpTxn1 : PaymentTransaction :=
  { id := 5, order_id := 1, order_item_id := some 3, buyer_id := 100,
    fisherman_id := 10, transaction_id := "MA", mpesa_receipt_number := "RA",
    amount := 1000, unit_price_per_kg := 1000, weight_kg := 100,
    platform_fee := 20, net_payout := 980, phone_number := "0712",
    status := "COMPLETED", result_code := some 0, result_desc := "ok",
    merchant_request_id := "MA", checkout_request_id := "CA" }

def fpTxn2 (w2 : Int) : PaymentTransaction :=
  { id := 6, order_id := 1, order_item_id := some 4, buyer_id := 100,
    fisherman_id := 11, transaction_id := "MB", mpesa_receipt_number := "",
    amount := 2000, unit_price_per_kg := 2000, weight_kg := w2,
    platform_fee := 40, net_payout := 1960, phone_number := "0712",
    status := "PENDING", result_code := none, result_desc := "",
    merchant_request_id := "MB", checkout_request_id := "CB" }

def fpOrder (m : String) : Order :=
  { id := 1, order_number := "1", customer_id := 100, status := "PAID",
    total_amount := 3000, platform_fee := 60, fishermen_net_amount := 2940,
    fulfillment_method := m, pickup_point := none, delivery_location := "x",
    delivery_address := "", delivery_notes := "", customer_phone := "0712" }

/-- A two-line order from two sellers, one charge COMPLETED and one
PENDING, stock still undeducted and no delivery row yet. -/
def fpDb (m : String) (w1 w2 a1 a2 : Int) : DB :=
  { users := [], profiles := [],
    fishes := [⟨1, 10, "tilapia", 1000, a1, "available"⟩,
               ⟨2, 11, "catfish", 2000, a2, "available"⟩],
    cart_items := [], pickup_points := [], orders := [fpOrder m],
    order_items := [fpItem1 w1, fpItem2 w2],
    transactions := [fpTxn1, fpTxn2 w2], verifications := [],
    deliveries := [], fish_logs := [], notifications := [], fee_logs := [],
    next_id := 20 }

/-- The success callback settling the second (last outstanding) charge. -/
def fpCb : CallbackResult :=
  ⟨true, some "CB", .intVal 0, some "ok", none, some "R2"⟩

/-- Settling the last outstanding charge of the two-line order deducts each
line's weight from its listing, leaves exactly one delivery row seeded per
fulfillment method, and drives the order into the post-payment state. -/
theorem fullSettlement_scenario (m : String) (w1 w2 a1 a2 : Int)
    (hm : m = "pickup" ∨ m = "delivery") (h1 : w1 ≤ a1) (h2 : w2 ≤ a2) :
    ((mpesa_callback (fpDb m w1 w2 a1 a2) fpCb).1.fishes.map
        (fun f => f.available_weight)) = [a1 - w1, a2 - w2] ∧
    ((mpesa_callback (fpDb m w1 w2 a1 a2) fpCb).1.deliveries.map
        (fun d => (d.order_id, d.status)))
      = [(1, if m = "pickup" then "READY_FOR_PICKUP" else "DELIVERY_IN_PROGRESS")] ∧
    ((mpesa_callback (fpDb m w1 w2 a1 a2) fpCb).1.orders.map (fun o => o.status))
      = ["DELIVERY_IN_PROGRESS"] := by
  rcases hm with rfl | rfl <;>
    refine ⟨?_, ?_, ?_⟩ <;>
      simp [mpesa_callback, handleSuccess, completePayment, settleOrder,
        Order.mark_as_paid, deliveryUpdateOrCreate, sellerNotificationGetOrCreate,
        platformFeeLogGetOrCreate, updateFirst, Fish.reduce_stock,
        normalizeResultCode, fpDb, fpOrder, fpItem1, fpItem2, fpTxn1, fpTxn2,
        fpCb, h1, h2]

/-- Claim C2: stock deduction and delivery-record writes happen only when
the matched callback leaves its order with zero PENDING and zero FAILED
charges (first conjunct); and when a success callback first establishes
that condition on a two-seller order, each line's listing loses exactly its
line weight and exactly one delivery row exists, seeded READY_FOR_PICKUP
for pickup orders and DELIVERY_IN_PROGRESS for delivery orders (second
conjunct). -/
theorem stock_and_delivery_gated_by_full_settlement :
    (∀ (db : DB) (r : CallbackResult),
      ((mpesa_callback db r).1.fishes ≠ db.fishes ∨
       (mpesa_callback db r).1.deliveries ≠ db.deliveries) →
      ∃ cid txn, r.checkout_request_id = some cid ∧
        db.transactions.find? (fun t => t.checkout_request_id == cid) = some txn ∧
        pendingCount (mpesa_callback db r).1 txn.order_id = 0 ∧
        failedCount (mpesa_callback db r).1 txn.order_id = 0) ∧
    (∀ (m : String) (w1 w2 a1 a2 : Int),
      (m = "pickup" ∨ m = "delivery") → w1 ≤ a1 → w2 ≤ a2 →
      ((mpesa_callback (fpDb m w1 w2 a1 a2) fpCb).1.fishes.map
          (fun f => f.available_weight)) = [a1 - w1, a2 - w2] ∧
      ((mpesa_callback (fpDb m w1 w2 a1 a2) fpCb).1.deliveries.map
          (fun d => (d.order_id, d.status)))
        = [(1, if m = "pickup" then "READY_FOR_PICKUP"
               else "DELIVERY_IN_PROGRESS")] ∧
      ((mpesa_callback (fpDb m w1 w2 a1 a2) fpCb).1.orders.map
          (fun o => o.status)) = ["DELIVERY_IN_PROGRESS"]) :=
  ⟨mpesa_callback_stock_delivery_guard, fullSettlement_scenario⟩

/-- Witness for C2: the guard applied to a concrete stock-changing callback
and the settlement scenario at concrete weights and stocks. -/
theorem stock_and_delivery_gated_by_full_settlement_witness :
    (∃ cid txn, w1cb.checkout_request_id = some cid ∧
      w1db.transactions.find? (fun t => t.checkout_request_id == cid) = some txn ∧
      pendingCount (mpesa_callback w1db w1cb).1 txn.order_id = 0 ∧
      failedCount (mpesa_callback w1db w1cb).1 txn.order_id = 0) ∧
    ((mpesa_callback (fpDb "pickup" 100 200 500 300) fpCb).1.fishes.map
        (fun f => f.available_weight)) = [400, 100] := by
  refine ⟨stock_and_delivery_gated_by_full_settlement.1 w1db w1cb
    (Or.inl (by decide)), ?_⟩
  have h := stock_and_delivery_gated_by_full_settlement.2 "pickup" 100 200 500 300
    (Or.inl rfl) (by decide) (by decide)
  simpa using h.1

/-! ### C3 — order-level financial invariant of checkout -/

/-- Primary keys already allocated are below the allocation counter — the
list-embedding image of database key uniqueness. -/
def DB.fresh_ids (db : DB) : Prop :=
  (∀ o ∈ db.orders, o.id < db.next_id) ∧
  (∀ it ∈ db.order_items, it.id < db.next_id ∧ it.order_id < db.next_id) ∧
  (∀ t ∈ db.transactions, t.id < db.next_id)

theorem updateFirst_append_last {α : Type} (p : α → Bool) (f : α → α)
    (l : List α) (x : α) (hl : ∀ y ∈ l, p y = false) (hx : p x = true) :
    updateFirst p f (l ++ [x]) = l ++ [f x] := by
  induction l with
  | nil => simp [updateFirst, hx]
  | cons y ys ih =>
    have hy : p y = false := hl y (List.mem_cons_self y ys)
    have hys : ∀ z ∈ ys, p z = false :=
      fun z hz => hl z (List.mem_cons_of_mem y hz)
    simp [updateFirst, hy, ih hys]

theorem find?_append_last {α : Type} (p : α → Bool) (l : List α) (x : α)
    (hl : ∀ y ∈ l, p y = false) (hx : p x = true) :
    List.find? p (l ++ [x]) = some x := by
  induction l with
  | nil => simp [List.find?, hx]
  | cons y ys ih =>
    have hy : p y = false := hl y (List.mem_cons_self y ys)
    have hys : ∀ z ∈ ys, p z = false :=
      fun z hz => hl z (List.mem_cons_of_mem y hz)
    simp [List.find?, hy, ih hys]

theorem createItemsLoop_orders (oid : Nat) (onum : String) (uid : Nat)
    (items : List CartItem) (db : DB) :
    (createItemsLoop oid onum uid db items).orders = db.orders := by
  induction items generalizing db with
  | nil => rfl
  | cons c rest ih =>
    unfold createItemsLoop
    dsimp only
    split
    · exact ih db
    · split
      · exact ih db
      · rw [ih]

theorem createItemsLoop_transactions (oid : Nat) (onum : String) (uid : Nat)
    (items : List CartItem) (db : DB) :
    (createItemsLoop oid onum uid db items).transactions = db.transactions := by
  induction items generalizing db with
  | nil => rfl
  | cons c rest ih =>
    unfold createItemsLoop
    dsimp only
    split
    · exact ih db
    · split
      · exact ih db
      · rw [ih]

theorem issueCharges_orders (order : Order) (user : User) (gw : Nat → StkResult)
    (items : List OrderItem) (db : DB) (idx : Nat) :
    (issueCharges order user gw db items idx).1.orders = db.orders := by
  induction items generalizing db idx with
  | nil => rfl
  | cons it rest ih =>
    unfold issueCharges
    dsimp only
    split
    · rw [ih]
    · rw [ih]

theorem issueCharges_order_items (order : Order) (user : User)
    (gw : Nat → StkResult) (items : List OrderItem) (db : DB) (idx : Nat) :
    (issueCharges order user gw db items idx).1.order_items = db.order_items := by
  induction items generalizing db idx with
  | nil => rfl
  | cons it rest ih =>
    unfold issueCharges
    dsimp only
    split
    · rw [ih]
    · rw [ih]

/-- The order written by the post-validation phase satisfies the financial
invariant: gross is the sum of its line totals, fee is the rounded 2% of
gross, net is gross minus fee. -/
theorem runCheckoutCreate_financials (dbv : DB) (user : User)
    (form : CheckoutForm) (pickup : Option Nat) (items : List CartItem)
    (gw : Nat → StkResult)
    (hfo : ∀ o ∈ dbv.orders, o.id < dbv.next_id) :
    ∃ o, (runCheckoutCreate dbv user form pickup items gw).1.orders.find?
        (fun x => x.id == dbv.next_id) = some o ∧
      o.total_amount =
        (((runCheckoutCreate dbv user form pickup items gw).1.order_items.filter
          (fun it => it.order_id == dbv.next_id)).map (fun it => it.total_price)).sum ∧
      o.platform_fee = roundHalfEven (2 * o.total_amount) 100 ∧
      o.fishermen_net_amount = o.total_amount - o.platform_fee := by
  have hl : ∀ y ∈ dbv.orders, ((fun (o : Order) => o.id == dbv.next_id) y) = false := by
    intro y hy
    have := hfo y hy
    simp only [beq_eq_false_iff_ne, ne_eq]
    omega
  unfold runCheckoutCreate
  dsimp only
  split
  · -- no charge-issuance errors
    simp only [issueCharges_orders, issueCharges_order_items,
      createItemsLoop_orders]
    rw [updateFirst_append_last _ _ _ _ hl (by simp)]
    rw [find?_append_last _ _ _ hl (by simp [Order.calculate_financials])]
    refine ⟨_, rfl, ?_, ?_, ?_⟩
    · simp [Order.calculate_financials, foldl_add_eq_sum]
    · simp [Order.calculate_financials]
    · simp [Order.calculate_financials]
  · -- some charge issuance failed: the order is additionally marked FAILED
    simp only [issueCharges_orders, issueCharges_order_items,
      createItemsLoop_orders]
    rw [updateFirst_append_last _ _ _ _ hl (by simp)]
    rw [updateFirst_append_last _ _ _ _ hl (by simp [Order.calculate_financials])]
    rw [find?_append_last _ _ _ hl (by simp [Order.calculate_financials])]
    refine ⟨_, rfl, ?_, ?_, ?_⟩
    · simp [Order.calculate_financials, foldl_add_eq_sum]
    · simp [Order.calculate_financials]
    · simp [Order.calculate_financials]

/-- A one-line cart: 10.00 kg of tilapia at 100.00/kg, gross 1000.00. -/
def c3db : DB := { exDb with cart_items := [⟨100, 1, 1000⟩] }

/-- The order that checkout writes for `c3db` (gross 1000.00, fee 20.00,
net 980.00). -/
def c3order : Order :=
  { id := 50, order_number := "50", customer_id := 100, status := "PENDING",
    total_amount := 100000, platform_fee := 2000,
    fishermen_net_amount := 98000, fulfillment_method := "delivery",
    pickup_point := none, delivery_location := "Beach Rd",
    delivery_address := "", delivery_notes := "",
    customer_phone := "0712345678" }

/-- Claim C3: every order created by checkout has gross equal to the sum of
its line totals, fee equal to the half-even-rounded 2% of gross, and net
equal to gross minus fee; in particular a gross of 1000.00 yields fee 20.00
and net 980.00. -/
theorem order_financials_spec :
    (∀ (db : DB) (user : User) (form : CheckoutForm) (gw : Nat → StkResult)
        (cfg : ParsedUrl) (oid : Nat) (perrs : List String),
      DB.fresh_ids db →
      (checkout_process db user form gw cfg).2 = .created oid perrs →
      ∃ o, (checkout_process db user form gw cfg).1.orders.find?
          (fun x => x.id == oid) = some o ∧
        o.total_amount =
          (((checkout_process db user form gw cfg).1.order_items.filter
            (fun it => it.order_id == oid)).map (fun it => it.total_price)).sum ∧
        o.platform_fee = roundHalfEven (2 * o.total_amount) 100 ∧
        o.fishermen_net_amount = o.total_amount - o.platform_fee) ∧
    (∃ o, (checkout_process c3db exUser exForm exGw exUrl).1.orders.find?
        (fun x => x.id == 50) = some o ∧
      o.total_amount = 100000 ∧ o.platform_fee = 2000 ∧
      o.fishermen_net_amount = 98000) := by
  constructor
  · intro db user form gw cfg oid perrs hfresh h
    rcases heqn : checkout_process db user form gw cfg with ⟨dbf, out⟩
    rw [heqn] at h
    dsimp only at h ⊢
    unfold checkout_process at heqn
    dsimp only at heqn
    split at heqn
    · injection heqn with h1 h2
      rw [← h2] at h
      exact absurd h (by simp)
    · split at heqn
      · injection heqn with h1 h2
        rw [← h2] at h
        exact absurd h (by simp)
      · split at heqn
        · injection heqn with h1 h2
          rw [← h2] at h
          exact absurd h (by simp)
        · split at heqn
          · injection heqn with h1 h2
            rw [← h2] at h
            exact absurd h (by simp)
          · split at heqn
            · injection heqn with h1 h2
              rw [← h2] at h
              exact absurd h (by simp)
            · split at heqn
              · injection heqn with h1 h2
                rw [← h2] at h
                exact absurd h (by simp)
              · obtain ⟨hsu, hsf, hsc, hsp, hso, hsoi, hstx, hsv, hsd, hsl,
                  hsn, hsfl, hsnx⟩ := validateItems_sameExceptProfiles user
                    (db.cart_items.filter (fun c => c.user_id == user.id)) db
                have hfo : ∀ o ∈ (validateItems user db
                    (db.cart_items.filter (fun c => c.user_id == user.id))).1.orders,
                    o.id < (validateItems user db
                      (db.cart_items.filter (fun c => c.user_id == user.id))).1.next_id := by
                  rw [hso, hsnx]
                  exact hfresh.1
                split at heqn
                · split at heqn
                  · obtain ⟨perrs2, hp⟩ := runCheckoutCreate_outcome
                      (validateItems user db
                        (db.cart_items.filter (fun c => c.user_id == user.id))).1
                      user form _
                      (db.cart_items.filter (fun c => c.user_id == user.id)) gw
                    obtain ⟨o, hfind, ht, hpf, hnet⟩ := runCheckoutCreate_financials
                      (validateItems user db
                        (db.cart_items.filter (fun c => c.user_id == user.id))).1
                      user form _
                      (db.cart_items.filter (fun c => c.user_id == user.id)) gw hfo
                    rw [heqn] at hp
                    dsimp only at hp
                    rw [hp] at h
                    injection h with hoid hperrs
                    have hdbf := congrArg Prod.fst heqn
                    dsimp only at hdbf
                    rw [← hdbf, ← hoid]
                    exact ⟨o, hfind, ht, hpf, hnet⟩
                  · injection heqn with h1 h2
                    rw [← h2] at h
                    exact absurd h (by simp)
                · obtain ⟨perrs2, hp⟩ := runCheckoutCreate_outcome
                    (validateItems user db
                      (db.cart_items.filter (fun c => c.user_id == user.id))).1
                    user form none
                    (db.cart_items.filter (fun c => c.user_id == user.id)) gw
                  obtain ⟨o, hfind, ht, hpf, hnet⟩ := runCheckoutCreate_financials
                    (validateItems user db
                      (db.cart_items.filter (fun c => c.user_id == user.id))).1
                    user form none
                    (db.cart_items.filter (fun c => c.user_id == user.id)) gw hfo
                  rw [heqn] at hp
                  dsimp only at hp
                  rw [hp] at h
                  injection h with hoid hperrs
                  have hdbf := congrArg Prod.fst heqn
                  dsimp only at hdbf
                  rw [← hdbf, ← hoid]
                  exact ⟨o, hfind, ht, hpf, hnet⟩
  · refine ⟨c3order, ?_, rfl, rfl, rfl⟩
    decide

/-- Witness for C3: the invariant instantiated on the concrete one-line
1000.00 checkout. -/
theorem order_financials_spec_witness :
    ∃ o, (checkout_process c3db exUser exForm exGw exUrl).1.orders.find?
        (fun x => x.id == 50) = some o ∧
      o.total_amount =
        (((checkout_process c3db exUser exForm exGw exUrl).1.order_items.filter
          (fun it => it.order_id == 50)).map (fun it => it.total_price)).sum ∧
      o.platform_fee = roundHalfEven (2 * o.total_amount) 100 ∧
      o.fishermen_net_amount = o.total_amount - o.platform_fee :=
  order_financials_spec.1 c3db exUser exForm exGw exUrl 50 []
    (by refine ⟨?_, ?_, ?_⟩ <;> decide) (by decide)

/-! ### C7 — partial charge-issuance failure -/

theorem issueCharges_transactions_prefix (order : Order) (user : User)
    (gw : Nat → StkResult) (items : List OrderItem) (db : DB) (idx : Nat) :
    ∃ new, (issueCharges order user gw db items idx).1.transactions =
      db.transactions ++ new := by
  induction items generalizing db idx with
  | nil => exact ⟨[], by simp [issueCharges]⟩
  | cons it rest ih =>
    unfold issueCharges
    dsimp only
    split
    · obtain ⟨new, hnew⟩ := ih _ (idx + 1)
      refine ⟨issuedTxn order user db.next_id it (gw idx) :: new, ?_⟩
      rw [hnew]
      simp
    · obtain ⟨new, hnew⟩ := ih _ (idx + 1)
      refine ⟨issuedTxn order user db.next_id it (gw idx) :: new, ?_⟩
      dsimp only
      rw [hnew]
      simp

theorem issueCharges_get (order : Order) (user : User) (gw : Nat → StkResult)
    (items : List OrderItem) (db : DB) (idx j : Nat) (hj : j < items.length) :
    ∃ it tid, items[j]? = some it ∧
      (issueCharges order user gw db items idx).1.transactions[db.transactions.length + j]?
        = some (issuedTxn order user tid it (gw (idx + j))) := by
  induction items generalizing db idx j with
  | nil => simp at hj
  | cons it rest ih =>
    unfold issueCharges
    dsimp only
    cases j with
    | zero =>
      refine ⟨it, db.next_id, by simp, ?_⟩
      have hpre : ∀ db1 idx1, ∃ new,
          (issueCharges order user gw db1 rest idx1).1.transactions =
            db1.transactions ++ new :=
        fun db1 idx1 => issueCharges_transactions_prefix order user gw rest db1 idx1
      split
      · obtain ⟨new, hnew⟩ := hpre _ (idx + 1)
        rw [hnew]
        dsimp only
        rw [List.append_assoc,
          show db.transactions.length + 0 = db.transactions.length by omega,
          List.getElem?_append_right (le_refl _)]
        simp
      · dsimp only
        obtain ⟨new, hnew⟩ := hpre _ (idx + 1)
        rw [hnew]
        dsimp only
        rw [List.append_assoc,
          show db.transactions.length + 0 = db.transactions.length by omega,
          List.getElem?_append_right (le_refl _)]
        simp
    | succ j =>
      have hj2 : j < rest.length := by simpa using hj
      have harith : idx + (j + 1) = (idx + 1) + j := by omega
      split
      · obtain ⟨it2, tid, hget, htx⟩ := ih _ (idx + 1) j hj2
        refine ⟨it2, tid, by simpa using hget, ?_⟩
        have hlen : ({ db with
            transactions := db.transactions ++ [issuedTxn order user db.next_id it (gw idx)],
            next_id := db.next_id + 1 } : DB).transactions.length
            = db.transactions.length + 1 := by simp
        rw [show db.transactions.length + (j + 1) = (db.transactions.length + 1) + j by omega]
        rw [← hlen, harith]
        exact htx
      · dsimp only
        obtain ⟨it2, tid, hget, htx⟩ := ih _ (idx + 1) j hj2
        refine ⟨it2, tid, by simpa using hget, ?_⟩
        have hlen : ({ db with
            transactions := db.transactions ++ [issuedTxn order user db.next_id it (gw idx)],
            next_id := db.next_id + 1 } : DB).transactions.length
            = db.transactions.length + 1 := by simp
        rw [show db.transactions.length + (j + 1) = (db.transactions.length + 1) + j by omega]
        rw [← hlen, harith]
        exact htx

theorem issueCharges_err_nonempty (order : Order) (user : User)
    (gw : Nat → StkResult) (items : List OrderItem) (db : DB) (idx j : Nat)
    (e : String) (hj : j < items.length) (he : gw (idx + j) = .err e) :
    (issueCharges order user gw db items idx).2 ≠ [] := by
  induction items generalizing db idx j with
  | nil => simp at hj
  | cons it rest ih =>
    unfold issueCharges
    dsimp only
    cases j with
    | zero =>
      rw [Nat.add_zero] at he
      rw [he]
      dsimp only
      simp
    | succ j =>
      have hj2 : j < rest.length := by simpa using hj
      have he2 : gw ((idx + 1) + j) = .err e := by
        rw [show (idx + 1) + j = idx + (j + 1) by omega]
        exact he
      split
      · exact ih _ (idx + 1) j hj2 he2
      · dsimp only
        simp

/-- A matched PENDING charge is completed by a success callback carrying no
settled amount — the spec's sense in which a live PENDING charge can still
be reconciled later. -/
theorem pending_charge_reconcilable (db2 : DB) (r : CallbackResult)
    (cid : String) (t : PaymentTransaction) (order : Order)
    (hcid : r.checkout_request_id = some cid) (hcne : cid ≠ "")
    (hfind : db2.transactions.find? (fun x => x.checkout_request_id == cid) = some t)
    (horder : db2.orders.find? (fun o => o.id == t.order_id) = some order)
    (hpend : t.status = "PENDING")
    (hcode : normalizeResultCode r.result_code = 0) (hsucc : r.success = true)
    (hamt : r.amount = none) :
    ((mpesa_callback db2 r).1.transactions.find?
        (fun x => x.checkout_request_id == cid)).map (fun x => x.status)
      = some "COMPLETED" := by
  have hcomp : t.status ≠ "COMPLETED" := by rw [hpend]; decide
  have hred := mpesa_callback_success_red db2 r cid t order hcid hcne hfind
    horder hcomp ⟨hcode, hsucc⟩
  have hred2 := handleSuccess_amount_ok_red db2 r t order cid
    (normalizeResultCode r.result_code) (Or.inl hamt)
  rw [hred, hred2, completePayment_transactions]
  have hp0 := List.find?_some hfind
  have hp : ((completedTxn r t (normalizeResultCode r.result_code)).checkout_request_id == cid)
      = true := hp0
  rw [find?_updateFirst _ _ _ t hfind hp]
  rfl

/-- Per-line charge bookkeeping of the post-validation phase: the reported
order id and error list, the FAILED order mark when any line failed, and
for each line the recorded transaction — PENDING keyed by the gateway ids
on success, FAILED under the synthetic local id on failure. -/
theorem runCheckoutCreate_partial (dbv : DB) (user : User) (form : CheckoutForm)
    (pickup : Option Nat) (items : List CartItem) (gw : Nat → StkResult)
    (hfo : ∀ o ∈ dbv.orders, o.id < dbv.next_id) :
    ∃ perrs,
      (runCheckoutCreate dbv user form pickup items gw).2 =
        .created dbv.next_id perrs ∧
      (perrs ≠ [] →
        (((runCheckoutCreate dbv user form pickup items gw).1.orders.find?
          (fun x => x.id == dbv.next_id)).map (fun o => o.status))
          = some "FAILED") ∧
      (∀ j, j < ((runCheckoutCreate dbv user form pickup items gw).1.order_items.filter
          (fun x => x.order_id == dbv.next_id)).length →
        (∀ e, gw j = .err e → perrs ≠ []) ∧
        ∃ it t,
          ((runCheckoutCreate dbv user form pickup items gw).1.order_items.filter
            (fun x => x.order_id == dbv.next_id))[j]? = some it ∧
          (runCheckoutCreate dbv user form pickup items
            gw).1.transactions[dbv.transactions.length + j]? = some t ∧
          (∀ m c, gw j = .ok m c → t.status = "PENDING" ∧
            t.checkout_request_id = c ∧ t.order_item_id = some it.id ∧
            t.order_id = dbv.next_id) ∧
          (∀ e, gw j = .err e → t.status = "FAILED" ∧
            t.order_item_id = some it.id ∧ t.order_id = dbv.next_id ∧
            t.transaction_id =
              "FAILED-" ++ toString dbv.next_id ++ "-" ++ toString it.id ∧
            t.result_desc = e)) := by
  have hl : ∀ y ∈ dbv.orders, ((fun (o : Order) => o.id == dbv.next_id) y) = false := by
    intro y hy
    have := hfo y hy
    simp only [beq_eq_false_iff_ne, ne_eq]
    omega
  unfold runCheckoutCreate
  dsimp only
  split
  · next hemp =>
    refine ⟨_, rfl, ?_, ?_⟩
    · intro hne
      exact absurd (List.isEmpty_iff.mp hemp) hne
    · intro j hj
      simp only [issueCharges_order_items, createItemsLoop_transactions] at hj ⊢
      constructor
      · intro e hgw
        refine issueCharges_err_nonempty _ user gw _ _ 0 j e hj ?_
        simpa using hgw
      · obtain ⟨it, tid, hget, htx⟩ := issueCharges_get _ user gw _ _ 0 j hj
        simp only [createItemsLoop_transactions, Nat.zero_add] at htx
        refine ⟨it, _, hget, htx, ?_, ?_⟩
        · intro m c hgw
          rw [hgw]
          exact ⟨rfl, rfl, rfl, rfl⟩
        · intro e hgw
          rw [hgw]
          exact ⟨rfl, rfl, rfl, rfl, rfl⟩
  · next hemp =>
    refine ⟨_, rfl, ?_, ?_⟩
    · intro hne
      simp only [issueCharges_orders, createItemsLoop_orders]
      rw [updateFirst_append_last _ _ _ _ hl (by simp)]
      rw [updateFirst_append_last _ _ _ _ hl (by simp [Order.calculate_financials])]
      rw [find?_append_last _ _ _ hl (by simp [Order.calculate_financials])]
      rfl
    · intro j hj
      simp only [issueCharges_order_items, createItemsLoop_transactions] at hj ⊢
      constructor
      · intro e hgw
        refine issueCharges_err_nonempty _ user gw _ _ 0 j e hj ?_
        simpa using hgw
      · obtain ⟨it, tid, hget, htx⟩ := issueCharges_get _ user gw _ _ 0 j hj
        simp only [createItemsLoop_transactions, Nat.zero_add] at htx
        refine ⟨it, _, hget, htx, ?_, ?_⟩
        · intro m c hgw
          rw [hgw]
          exact ⟨rfl, rfl, rfl, rfl⟩
        · intro e hgw
          rw [hgw]
          exact ⟨rfl, rfl, rfl, rfl, rfl⟩

/-- A gateway that rejects the second line of the charge-issuance loop and
accepts every other line. -/
def c7gw : Nat → StkResult :=
  fun i =>
    if i == 1 then .err "gateway down"
    else .ok ("M" ++ toString i) ("C" ++ toString i)

/-- Claim C7: when any line fails charge issuance during checkout the whole
order is marked FAILED and that line records a FAILED charge request under
a synthetic local id, while every line whose issuance succeeded keeps a
PENDING charge request that is not rolled back and is still completed by a
later successful gateway callback. -/
theorem partial_issuance_failure_spec :
    (∀ (db : DB) (user : User) (form : CheckoutForm) (gw : Nat → StkResult)
        (cfg : ParsedUrl) (oid : Nat) (perrs : List String),
      DB.fresh_ids db →
      (checkout_process db user form gw cfg).2 = .created oid perrs →
      (perrs ≠ [] →
        (((checkout_process db user form gw cfg).1.orders.find?
          (fun x => x.id == oid)).map (fun o => o.status)) = some "FAILED") ∧
      (∀ j, j < ((checkout_process db user form gw cfg).1.order_items.filter
          (fun x => x.order_id == oid)).length →
        (∀ e, gw j = .err e → perrs ≠ []) ∧
        ∃ it t,
          ((checkout_process db user form gw cfg).1.order_items.filter
            (fun x => x.order_id == oid))[j]? = some it ∧
          (checkout_process db user form gw
            cfg).1.transactions[db.transactions.length + j]? = some t ∧
          (∀ m c, gw j = .ok m c → t.status = "PENDING" ∧
            t.checkout_request_id = c ∧ t.order_item_id = some it.id ∧
            t.order_id = oid) ∧
          (∀ e, gw j = .err e → t.status = "FAILED" ∧
            t.order_item_id = some it.id ∧ t.order_id = oid ∧
            t.transaction_id =
              "FAILED-" ++ toString oid ++ "-" ++ toString it.id ∧
            t.result_desc = e))) ∧
    (∀ (db2 : DB) (r : CallbackResult) (cid : String)
        (t : PaymentTransaction) (order : Order),
      r.checkout_request_id = some cid → cid ≠ "" →
      db2.transactions.find? (fun x => x.checkout_request_id == cid) = some t →
      db2.orders.find? (fun o => o.id == t.order_id) = some order →
      t.status = "PENDING" →
      normalizeResultCode r.result_code = 0 → r.success = true →
      r.amount = none →
      ((mpesa_callback db2 r).1.transactions.find?
          (fun x => x.checkout_request_id == cid)).map (fun x => x.status)
        = some "COMPLETED") := by
  constructor
  · intro db user form gw cfg oid perrs hfresh h
    rcases heqn : checkout_process db user form gw cfg with ⟨dbf, out⟩
    rw [heqn] at h
    dsimp only at h ⊢
    unfold checkout_process at heqn
    dsimp only at heqn
    split at heqn
    · injection heqn with h1 h2
      rw [← h2] at h
      exact absurd h (by simp)
    · split at heqn
      · injection heqn with h1 h2
        rw [← h2] at h
        exact absurd h (by simp)
      · split at heqn
        · injection heqn with h1 h2
          rw [← h2] at h
          exact absurd h (by simp)
        · split at heqn
          · injection heqn with h1 h2
            rw [← h2] at h
            exact absurd h (by simp)
          · split at heqn
            · injection heqn with h1 h2
              rw [← h2] at h
              exact absurd h (by simp)
            · split at heqn
              · injection heqn with h1 h2
                rw [← h2] at h
                exact absurd h (by simp)
              · obtain ⟨hsu, hsf, hsc, hsp, hso, hsoi, hstx, hsv, hsd, hsl,
                  hsn, hsfl, hsnx⟩ := validateItems_sameExceptProfiles user
                    (db.cart_items.filter (fun c => c.user_id == user.id)) db
                have hfo : ∀ o ∈ (validateItems user db
                    (db.cart_items.filter (fun c => c.user_id == user.id))).1.orders,
                    o.id < (validateItems user db
                      (db.cart_items.filter (fun c => c.user_id == user.id))).1.next_id := by
                  rw [hso, hsnx]
                  exact hfresh.1
                split at heqn
                · split at heqn
                  · obtain ⟨perrs2, hout, himp, hlines⟩ := runCheckoutCreate_partial
                      (validateItems user db
                        (db.cart_items.filter (fun c => c.user_id == user.id))).1
                      user form _
                      (db.cart_items.filter (fun c => c.user_id == user.id)) gw hfo
                    rw [heqn] at hout
                    dsimp only at hout
                    rw [hout] at h
                    injection h with hoid hperrs
                    have hdbf := congrArg Prod.fst heqn
                    dsimp only at hdbf
                    rw [← hdbf, ← hoid, ← hperrs, ← hstx]
                    exact ⟨himp, hlines⟩
                  · injection heqn with h1 h2
                    rw [← h2] at h
                    exact absurd h (by simp)
                · obtain ⟨perrs2, hout, himp, hlines⟩ := runCheckoutCreate_partial
                    (validateItems user db
                      (db.cart_items.filter (fun c => c.user_id == user.id))).1
                    user form none
                    (db.cart_items.filter (fun c => c.user_id == user.id)) gw hfo
                  rw [heqn] at hout
                  dsimp only at hout
                  rw [hout] at h
                  injection h with hoid hperrs
                  have hdbf := congrArg Prod.fst heqn
                  dsimp only at hdbf
                  rw [← hdbf, ← hoid, ← hperrs, ← hstx]
                  exact ⟨himp, hlines⟩
  · intro db2 r cid t order h1 h2 h3 h4 h5 h6 h7 h8
    exact pending_charge_reconcilable db2 r cid t order h1 h2 h3 h4 h5 h6 h7 h8

/-- Witness for C7: with the gateway rejecting the second of the two cart
lines, the order written by checkout is FAILED. -/
theorem partial_issuance_failure_spec_witness :
    (((checkout_process exDb exUser exForm c7gw exUrl).1.orders.find?
      (fun x => x.id == 50)).map (fun o => o.status)) = some "FAILED" :=
  (partial_issuance_failure_spec.1 exDb exUser exForm c7gw exUrl 50
    ["catfish: gateway down"] (by refine ⟨?_, ?_, ?_⟩ <;> decide)
    (by decide)).1 (by decide)

/-- A PENDING charge of 50.00 and a success callback settling 49.99. -/
def c6db : DB :=
  { c5db with transactions := [{ c5txn with status := "PENDING" }] }

def c6cb : CallbackResult :=
  ⟨true, some "CX", .intVal 0, some "ok", some (.cents 4999), some "R"⟩

/-- Witness for C6 on the concrete mismatching callback. -/
theorem amount_mismatch_rejected_witness :
    (mpesa_callback c6db c6cb).2 =
      ⟨"error", "Callback amount validation failed", 400⟩ ∧
    (mpesa_callback c6db c6cb).1.orders = c6db.orders := by
  have h := amount_mismatch_rejected c6db c6cb "CX"
    ({ c5txn with status := "PENDING" }) c5order 4999
    rfl (by decide) (by decide) (by decide) (by decide) (by decide) rfl rfl
    (by decide)
  exact ⟨h.1, h.2.2.2.1⟩

end Rechiro
